import Mathlib

set_option maxHeartbeats 4000000
set_option maxRecDepth 100000

/-!
Verification development for the Mask-Fill utility: a shallow embedding of the
repository's modules (GridProjectionInfo, H5GridProjectionInfo, H5MaskFill,
pymods.H5MaskFill, pymods.MaskFillCaching, MaskFillUtility) together with
theorems about their behaviour.  Numeric cell values are modelled as rationals,
Python dictionaries as association lists, and Python exceptions as an explicit
error type threaded through `Except`.
-/

/-- Characters of `p` occur verbatim at the head of `s`. -/
def charsAtHead : List Char → List Char → Bool
  | [], _ => true
  | _ :: _, [] => false
  | p :: ps, c :: cs => p == c && charsAtHead ps cs

/-- `hasSubChars p s`: `p` occurs contiguously somewhere inside `s`.
Models Python's substring test `p in s`. -/
def hasSubChars (p : List Char) : List Char → Bool
  | [] => List.isEmpty p
  | c :: cs => charsAtHead p (c :: cs) || hasSubChars p cs

/-- Python substring containment `pat in s`. -/
def strHas (s pat : String) : Bool := hasSubChars pat.toList s.toList

/-- Python `str.endswith` (kernel-computable list model of the builtin). -/
def strEndsWith (s post : String) : Bool :=
  charsAtHead post.toList.reverse s.toList.reverse

/-- ASCII lower-casing of one character. -/
def charLower (c : Char) : Char :=
  if 'A' ≤ c ∧ c ≤ 'Z' then Char.ofNat (c.toNat + 32) else c

/-- Python `str.lower` (kernel-computable list model of the builtin). -/
def strToLower (s : String) : String := String.mk (s.toList.map charLower)

theorem charsAtHead_self_append (p r : List Char) : charsAtHead p (p ++ r) = true := by
  induction p with
  | nil => rfl
  | cons c cs ih => simpa [charsAtHead] using ih

theorem hasSubChars_append_of_right (p l r : List Char) (h : hasSubChars p r = true) :
    hasSubChars p (l ++ r) = true := by
  induction l with
  | nil => simpa using h
  | cons c cs ih =>
      simp only [List.cons_append, hasSubChars, Bool.or_eq_true]
      exact Or.inr ih

theorem hasSubChars_self_append (p r : List Char) : hasSubChars p (p ++ r) = true := by
  cases p with
  | nil =>
      cases r with
      | nil => rfl
      | cons c cs => simp [hasSubChars, charsAtHead]
  | cons c cs =>
      simp only [List.cons_append, hasSubChars, Bool.or_eq_true]
      exact Or.inl (charsAtHead_self_append (c :: cs) r)

theorem string_toList_append (s t : String) : (s ++ t).toList = s.toList ++ t.toList := by
  cases s with
  | mk a =>
      cases t with
      | mk b => rfl

/-- A string of the shape `a ++ pat ++ b` contains `pat`. -/
theorem strHas_of_middle (a pat b : String) : strHas (a ++ pat ++ b) pat = true := by
  unfold strHas
  rw [string_toList_append, string_toList_append, List.append_assoc]
  exact hasSubChars_append_of_right _ _ _ (hasSubChars_self_append _ _)

/-- Association-list lookup; models Python `dict.__getitem__` / `in` tests. -/
def alookup {α : Type} : List (String × α) → String → Option α
  | [], _ => none
  | (k', v) :: rest, k => if k' == k then some v else alookup rest k

/-- Association-list update; models Python `dict.__setitem__` (replace in place,
append at the end when the key is new, as CPython dicts preserve insertion order). -/
def aset {α : Type} : List (String × α) → String → α → List (String × α)
  | [], k, v => [(k, v)]
  | (k', v') :: rest, k, v =>
      if k' == k then (k, v) :: rest else (k', v') :: aset rest k v

theorem alookup_aset_self {α : Type} (l : List (String × α)) (k : String) (v : α) :
    alookup (aset l k v) k = some v := by
  induction l with
  | nil => simp [aset, alookup]
  | cons p rest ih =>
      obtain ⟨k', v'⟩ := p
      by_cases h : k' == k
      · simp [aset, h, alookup]
      · simp [aset, h, alookup, ih]

theorem alookup_aset_ne {α : Type} (l : List (String × α)) (k p : String) (v : α)
    (h : p ≠ k) : alookup (aset l k v) p = alookup l p := by
  induction l with
  | nil =>
      simp only [aset, alookup]
      have : (k == p) = false := by
        simp [beq_iff_eq]
        exact fun hk => h hk.symm
      simp [this]
  | cons q rest ih =>
      obtain ⟨k', v'⟩ := q
      by_cases hk : k' == k
      · have hk' : k' = k := by simpa [beq_iff_eq] using hk
        have : (k == p) = false := by
          simp [beq_iff_eq]
          exact fun hkp => h hkp.symm
        subst hk'
        simp [aset, alookup, this]
      · simp [aset, hk, alookup, ih]

/-- Re-setting a key to the value it already has leaves every lookup unchanged. -/
theorem alookup_aset_same {α : Type} (l : List (String × α)) (k : String) (v : α)
    (h : alookup l k = some v) (p : String) : alookup (aset l k v) p = alookup l p := by
  induction l with
  | nil => simp [alookup] at h
  | cons q rest ih =>
      obtain ⟨k', v'⟩ := q
      by_cases hk : k' == k
      · have hk' : k' = k := by simpa [beq_iff_eq] using hk
        subst hk'
        simp only [alookup, beq_self_eq_true, if_pos] at h
        obtain rfl : v' = v := by simpa using h
        simp [aset, alookup]
      · simp only [alookup, hk, if_neg, Bool.not_eq_true] at h
        simp only [aset, hk, if_neg, Bool.not_eq_true]
        simp only [alookup]
        by_cases hp : k' == p
        · simp [hp]
        · simp [hp, ih (by simpa [alookup, hk] using h)]

/-- Python `str(x)` on an optional integer exit status (`None` renders as `"None"`). -/
def pyStr : Option Nat → String
  | none => "None"
  | some n => toString n

/-- Decimal-digit accumulator used by `pyFloat`. -/
def parseDigitsAux : List Char → Nat → Option Nat
  | [], acc => some acc
  | c :: cs, acc =>
      if c.isDigit then parseDigitsAux cs (acc * 10 + (c.toNat - 48)) else none

/-- Modelled from the spec: Python's builtin `float` parser (a boundary of the
CLI component), restricted to an optional sign, an integer part and an optional
fractional part — enough to separate the numeric strings accepted by
`--DEFAULT_FILL` from the non-numeric ones rejected with `ValueError`. -/
def pyFloat (s : String) : Option ℚ :=
  let cs := s.toList
  let signAndRest : ℚ × List Char :=
    match cs with
    | '-' :: rest => (-1, rest)
    | '+' :: rest => (1, rest)
    | _ => (1, cs)
  let sign := signAndRest.1
  let body := signAndRest.2
  let intPart := body.takeWhile (fun c => !(c == '.'))
  let rest := body.dropWhile (fun c => !(c == '.'))
  match rest with
  | [] =>
      if intPart.isEmpty then none
      else match parseDigitsAux intPart 0 with
        | some n => some (sign * n)
        | none => none
  | _ :: frac =>
      if intPart.isEmpty && frac.isEmpty then none
      else match parseDigitsAux intPart 0, parseDigitsAux frac 0 with
        | some n, some f => some (sign * (n + (f : ℚ) / ((10 : ℚ) ^ frac.length)))
        | _, _ => none

example : strHas "abcdef" "cde" = true := by decide
example : strHas "abcdef" "cdf" = false := by decide
example : pyFloat "-9999" = some (-9999) := by
  simp +decide [pyFloat, parseDigitsAux, List.takeWhile, List.dropWhile]
example : pyFloat "abc" = none := by decide
example : pyFloat "3.5" = some (7/2) := by
  simp +decide [pyFloat, parseDigitsAux, List.takeWhile, List.dropWhile]
  norm_num

/-- Python exceptions distinguished by the embedding. `cfCompliance` models the
`CFComplianceError` class of H5GridProjectionInfo; the others model builtin
exception kinds that unguarded code can raise. -/
inductive PyError where
  | cfCompliance (msg : String)
  | keyError (key : String)
  | typeError (msg : String)
  | unboundLocal (var : String)
  | indexError (msg : String)
  | valueError (msg : String)
  | ioError (msg : String)
  deriving DecidableEq

/-- Whether an error is the distinguished CF-compliance error. -/
def PyError.isCF : PyError → Bool
  | .cfCompliance _ => true
  | _ => false

/-- HDF5 attribute values: text, byte-encoded text, or numbers. -/
inductive AttrVal where
  | str (s : String)
  | bytes (s : String)
  | num (q : ℚ)
  deriving DecidableEq

/-- A grid-mapping dataset: an attribute-only dataset holding CF parameters. -/
structure GridMapping where
  attrs : List (String × AttrVal)
  deriving DecidableEq

/-- An HDF5 dataset of the model.  `dims` is `dataset.shape`; `grid` is the 2-D
view `dataset[:]` used by the mask fill; `coords` is the 1-D value view used
when the dataset serves as a dimension scale; the remaining fields model the
CF attributes the code reads (`DIMENSION_LIST` as the referenced dataset names,
`units`, `grid_mapping`, `_FillValue`, `observed_max`, `observed_min`,
`observed_mean`), each `none` when the attribute is absent. -/
structure H5Dataset where
  name : String
  dims : List Nat
  grid : List (List ℚ)
  coords : List ℚ
  dimensionList : Option (List String)
  units : Option String
  gridMapping : Option String
  fillValueAttr : Option ℚ
  observedMax : Option ℚ
  observedMin : Option ℚ
  observedMean : Option ℚ
  deriving DecidableEq

/-- `len(dim[:])`: the first-axis length of a dataset. -/
def dimLen (d : H5Dataset) : Nat := d.dims.headD 0

/-- An HDF5 file: its datasets listed in the depth-first order in which
`process_file` visits the group tree (the nesting in groups only determines
this visiting order), together with the grid-mapping datasets reachable through
`dataset.file[name]`. -/
structure H5File where
  datasets : List H5Dataset
  gridMappings : List (String × GridMapping)
  deriving DecidableEq

/-- The `dataset.file[reference]` lookup environment of a file. -/
def fileEnv (f : H5File) : List (String × H5Dataset) :=
  f.datasets.map (fun d => (d.name, d))

/-- Modelled from the spec: the external CRS/projection library boundary (§6) —
`CRS.from_cf(...).to_dict()` and `CRS.from_dict(...).to_proj4()`. -/
structure CRSConv where
  fromCf : List (String × AttrVal) → List (String × AttrVal)
  toProj4 : List (String × AttrVal) → String

/-- Python `key in dict`. -/
def acontains {α : Type} (l : List (String × α)) (k : String) : Bool :=
  (alookup l k).isSome

/-- The fixed geographic proj4 string returned for `degrees` units. -/
def geographic_proj4 : String := "+proj=longlat +ellps=WGS84 +datum=WGS84 +no_defs"

/-- The six-coefficient affine transform. -/
structure Affine where
  a : ℚ
  b : ℚ
  c : ℚ
  d : ℚ
  e : ℚ
  f : ℚ
  deriving DecidableEq

/-- `str(transform)`; the affine library's exact decimal formatting is
abstracted to rational renderings of the six coefficients. -/
def affineStr (t : Affine) : String :=
  "|" ++ toString t.a ++ ", " ++ toString t.b ++ ", " ++ toString t.c ++ ", " ++
  toString t.d ++ ", " ++ toString t.e ++ ", " ++ toString t.f ++ "|"

/-- `str(shape)` of a numpy shape tuple. -/
def shapeStr (dims : List Nat) : String :=
  "(" ++ String.intercalate ", " (dims.map toString) ++ ")"

/-- `decode_bytes` (identical in both readers): decodes every byte value of an
attribute dictionary to text. -/
def decode_bytes (attrs : List (String × AttrVal)) : List (String × AttrVal) :=
  attrs.map (fun kv =>
    match kv.2 with
    | .bytes s => (kv.1, .str s)
    | v => (kv.1, v))

/-- The dimension-assignment loop shared verbatim by both readers'
`get_dimension_datasets`: for each reference, the referenced dataset is looked
up in the file, then assigned to the `y` slot when its length equals
`shape[0]` and to the `x` slot when its length equals `shape[1]` (a later
match overwrites an earlier one, as in the Python loop; `shape[0]`/`shape[1]`
are read on each iteration). -/
def assignDims (env : List (String × H5Dataset)) (dims : List Nat) :
    List String → Option H5Dataset → Option H5Dataset →
    Except PyError (Option H5Dataset × Option H5Dataset)
  | [], xOpt, yOpt => .ok (xOpt, yOpt)
  | r :: rest, xOpt, yOpt =>
      match alookup env r with
      | none => .error (.keyError r)
      | some dim =>
        match dims.get? 0 with
        | none => .error (.indexError "shape index out of range")
        | some rows =>
          match dims.get? 1 with
          | none => .error (.indexError "shape index out of range")
          | some cols =>
            assignDims env dims rest
              (if dimLen dim == cols then some dim else xOpt)
              (if dimLen dim == rows then some dim else yOpt)

namespace GridProjectionInfo

/-- Legacy `get_dimension_datasets`: when `DIMENSION_LIST` is absent the guard
fails and the function falls through, returning `None`; otherwise it runs the
assignment loop and returns `(x, y)`, raising `UnboundLocalError` when a slot
was never assigned. -/
def get_dimension_datasets (env : List (String × H5Dataset)) (h5_dataset : H5Dataset) :
    Except PyError (Option (H5Dataset × H5Dataset)) :=
  match h5_dataset.dimensionList with
  | none => .ok none
  | some dim_list => do
      let assigned ← assignDims env h5_dataset.dims dim_list none none
      match assigned.1 with
      | none => .error (.unboundLocal "x")
      | some x =>
        match assigned.2 with
        | none => .error (.unboundLocal "y")
        | some y => .ok (some (x, y))

/-- Legacy `get_proj4`: converts the CF parameters, then unconditionally copies
`standard_parallel` into the `lat_ts` key — a `KeyError` when the CF
parameters lack `standard_parallel`. -/
def get_proj4 (conv : CRSConv) (grid_mapping : GridMapping) : Except PyError String :=
  let cf_parameters := decode_bytes grid_mapping.attrs
  let dictionary := conv.fromCf cf_parameters
  match alookup cf_parameters "standard_parallel" with
  | none => .error (.keyError "standard_parallel")
  | some v => .ok (conv.toProj4 (aset dictionary "lat_ts" v))

/-- Legacy `get_hdf_proj4`: subscripting the `None` returned for a missing
`DIMENSION_LIST` raises a `TypeError`; a missing `units` or `grid_mapping`
attribute raises a `KeyError` — no distinguished CF error in this generation. -/
def get_hdf_proj4 (conv : CRSConv) (env : List (String × H5Dataset))
    (gms : List (String × GridMapping)) (h5_dataset : H5Dataset) :
    Except PyError String := do
  let dimensions ← get_dimension_datasets env h5_dataset
  match dimensions with
  | none => .error (.typeError "NoneType object is not subscriptable")
  | some (x, _) =>
    match x.units with
    | none => .error (.keyError "units")
    | some units =>
      if strHas units "degrees" then .ok geographic_proj4
      else
        match h5_dataset.gridMapping with
        | none => .error (.keyError "grid_mapping")
        | some grid_mapping_name =>
          match alookup gms grid_mapping_name with
          | none => .error (.keyError grid_mapping_name)
          | some grid_mapping => get_proj4 conv grid_mapping

/-- Legacy `get_dimension_arrays`: unpacking the `None` returned for a missing
`DIMENSION_LIST` raises a `TypeError`. -/
def get_dimension_arrays (env : List (String × H5Dataset)) (h5_dataset : H5Dataset) :
    Except PyError (List ℚ × List ℚ) := do
  let dimensions ← get_dimension_datasets env h5_dataset
  match dimensions with
  | none => .error (.typeError "cannot unpack non-iterable NoneType object")
  | some (x, y) => .ok (x.coords, y.coords)

/-- Legacy `get_cell_size`: `x[1] - x[0]`, `y[1] - y[0]`. -/
def get_cell_size (env : List (String × H5Dataset)) (h5_dataset : H5Dataset) :
    Except PyError (ℚ × ℚ) := do
  let arrays ← get_dimension_arrays env h5_dataset
  match arrays.1.get? 1, arrays.1.get? 0, arrays.2.get? 1, arrays.2.get? 0 with
  | some x1, some x0, some y1, some y0 => .ok (x1 - x0, y1 - y0)
  | _, _, _, _ => .error (.indexError "index out of range")

/-- Legacy `get_corner_points`: half-cell offsets from the first and last
coordinate values: `(x_min, x_max, y_min, y_max)`. -/
def get_corner_points (env : List (String × H5Dataset)) (h5_dataset : H5Dataset) :
    Except PyError (ℚ × ℚ × ℚ × ℚ) := do
  let arrays ← get_dimension_arrays env h5_dataset
  let sizes ← get_cell_size env h5_dataset
  match arrays.1.get? 0, arrays.1.getLast?, arrays.2.get? 0, arrays.2.getLast? with
  | some x0, some xl, some y0, some yl =>
      .ok (x0 - sizes.1 / 2, xl + sizes.1 / 2, yl + sizes.2 / 2, y0 - sizes.2 / 2)
  | _, _, _, _ => .error (.indexError "index out of range")

/-- Legacy `get_transform`: `Affine(cell_width, 0, x_min, 0, cell_height, y_max)`. -/
def get_transform (env : List (String × H5Dataset)) (h5_dataset : H5Dataset) :
    Except PyError Affine := do
  let sizes ← get_cell_size env h5_dataset
  let corners ← get_corner_points env h5_dataset
  .ok ⟨sizes.1, 0, corners.1, 0, sizes.2, corners.2.2.2⟩

end GridProjectionInfo

namespace H5GridProjectionInfo

/-- Strict `get_dimension_datasets`: a missing `DIMENSION_LIST` raises the
distinguished CF-compliance error naming the dataset; otherwise the shared
assignment loop runs, raising `UnboundLocalError` when a slot was never
assigned. -/
def get_dimension_datasets (env : List (String × H5Dataset)) (h5_dataset : H5Dataset) :
    Except PyError (H5Dataset × H5Dataset) :=
  match h5_dataset.dimensionList with
  | none =>
      .error (.cfCompliance
        ("The dataset " ++ h5_dataset.name ++ " does not have a DIMENSION_LIST attribute"))
  | some dim_list => do
      let assigned ← assignDims env h5_dataset.dims dim_list none none
      match assigned.1 with
      | none => .error (.unboundLocal "x")
      | some x =>
        match assigned.2 with
        | none => .error (.unboundLocal "y")
        | some y => .ok (x, y)

/-- Strict `get_proj4`: the `standard_parallel` → `lat_ts` copy is guarded by
`'standard_parallel' in dictionary` — membership in the *derived* CRS
dictionary `CRS.from_cf(...).to_dict()` — while the copied value is read from
`cf_parameters`, exactly as in the source. -/
def get_proj4 (conv : CRSConv) (grid_mapping : GridMapping) : Except PyError String :=
  let cf_parameters := decode_bytes grid_mapping.attrs
  let dictionary := conv.fromCf cf_parameters
  if acontains dictionary "standard_parallel" then
    match alookup cf_parameters "standard_parallel" with
    | none => .error (.keyError "standard_parallel")
    | some v => .ok (conv.toProj4 (aset dictionary "lat_ts" v))
  else .ok (conv.toProj4 dictionary)

/-- Strict `get_hdf_proj4`: CF errors for a missing `units` attribute on
`dimensions[0]` (message naming the processed dataset) and for a
non-geographic dataset without `grid_mapping` (fixed message with no name
interpolated, as in the source's f-string). -/
def get_hdf_proj4 (conv : CRSConv) (env : List (String × H5Dataset))
    (gms : List (String × GridMapping)) (h5_dataset : H5Dataset) :
    Except PyError String := do
  let dimensions ← get_dimension_datasets env h5_dataset
  match dimensions.1.units with
  | none =>
      .error (.cfCompliance
        ("The dataset " ++ h5_dataset.name ++ " does not have a units attribute"))
  | some units =>
      if strHas units "degrees" then .ok geographic_proj4
      else
        match h5_dataset.gridMapping with
        | none =>
            .error (.cfCompliance
              "The dataset is not geographically gridded and does not have a grid mapping attribute")
        | some grid_mapping_name =>
          match alookup gms grid_mapping_name with
          | none => .error (.keyError grid_mapping_name)
          | some grid_mapping => get_proj4 conv grid_mapping

/-- Strict `get_dimension_arrays`. -/
def get_dimension_arrays (env : List (String × H5Dataset)) (h5_dataset : H5Dataset) :
    Except PyError (List ℚ × List ℚ) := do
  let dimensions ← get_dimension_datasets env h5_dataset
  .ok (dimensions.1.coords, dimensions.2.coords)

/-- Strict `get_cell_size`. -/
def get_cell_size (env : List (String × H5Dataset)) (h5_dataset : H5Dataset) :
    Except PyError (ℚ × ℚ) := do
  let arrays ← get_dimension_arrays env h5_dataset
  match arrays.1.get? 1, arrays.1.get? 0, arrays.2.get? 1, arrays.2.get? 0 with
  | some x1, some x0, some y1, some y0 => .ok (x1 - x0, y1 - y0)
  | _, _, _, _ => .error (.indexError "index out of range")

/-- Strict `get_corner_points`. -/
def get_corner_points (env : List (String × H5Dataset)) (h5_dataset : H5Dataset) :
    Except PyError (ℚ × ℚ × ℚ × ℚ) := do
  let arrays ← get_dimension_arrays env h5_dataset
  let sizes ← get_cell_size env h5_dataset
  match arrays.1.get? 0, arrays.1.getLast?, arrays.2.get? 0, arrays.2.getLast? with
  | some x0, some xl, some y0, some yl =>
      .ok (x0 - sizes.1 / 2, xl + sizes.1 / 2, yl + sizes.2 / 2, y0 - sizes.2 / 2)
  | _, _, _, _ => .error (.indexError "index out of range")

/-- Strict `get_transform`. -/
def get_transform (env : List (String × H5Dataset)) (h5_dataset : H5Dataset) :
    Except PyError Affine := do
  let sizes ← get_cell_size env h5_dataset
  let corners ← get_corner_points env h5_dataset
  .ok ⟨sizes.1, 0, corners.1, 0, sizes.2, corners.2.2.2⟩

/-- Strict `get_fill_value`: the `_FillValue` attribute if present, otherwise
the default (logging at info level that the default is substituted). -/
def get_fill_value (h5_dataset : H5Dataset) (default_fill_value : ℚ) : ℚ :=
  match h5_dataset.fillValueAttr with
  | some v => v
  | none => default_fill_value

end H5GridProjectionInfo

/-- A boolean mask grid. -/
def Mask : Type := List (List Bool)

instance : DecidableEq Mask := by
  unfold Mask
  infer_instance

/-- The in-run cache of mask arrays keyed by digest, and the on-disk cache of
`<key>.npy` files keyed by path. -/
def MaskCache : Type := List (String × Mask)

instance : DecidableEq MaskCache := by
  unfold MaskCache
  infer_instance

namespace MaskFill

/-- Modelled from the spec: `MaskFill.mask_fill_array` (§4.1 `apply_mask_fill`).
The core module MaskFill.py is imported by every pipeline but is not among the
available sources.  Returns a grid of the same shape (and, trivially in this
embedding, the same numeric type) as `raster_grid`, keeping each cell whose
mask value is True and substituting `fill_value` where the mask is False; the
embedding is a pure function, so `raster_grid` is not mutated. -/
def mask_fill_array (raster_grid : List (List ℚ)) (mask_grid : List (List Bool))
    (fill_value : ℚ) : List (List ℚ) :=
  List.zipWith
    (fun rRow mRow => List.zipWith (fun v b => if b then v else fill_value) rRow mRow)
    raster_grid mask_grid

/-- The final path component of a path (kernel-computable list model of
`os.path`-style basename extraction). -/
def baseName (p : String) : String :=
  String.mk (((p.toList.reverse).takeWhile (fun c => !(c == '/'))).reverse)

/-- Modelled from the spec: `MaskFill.get_masked_file_path` (§4.1
`derive_output_path`) — deterministic for a fixed (input path, output
directory) pair, keeps the original extension and places the result inside the
output directory; the exact naming convention is an open question of the spec
(§9) and is modelled by prepending `masked_` to the file name. -/
def get_masked_file_path (input_path output_dir : String) : String :=
  output_dir ++ "/masked_" ++ baseName input_path

end MaskFill

/-- Modelled from the spec: the Core Mask Engine's shapefile/rasterization
boundary (§4.1 `reproject_shapes`, `rasterize_mask`): geometry content is
abstract; `get_projected_shapes` reads and reprojects the shapefile's shapes
into a proj4 CRS and `get_mask_array` rasterizes them against a grid shape and
affine transform. -/
structure MaskEngine where
  get_projected_shapes : String → String → List (ℚ × ℚ)
  get_mask_array : List (ℚ × ℚ) → List Nat → Affine → Mask

/-- Python builtin `max` over the remaining cell values. -/
def pyMax : List ℚ → Except PyError ℚ
  | [] => .error (.valueError "max() arg is an empty sequence")
  | x :: xs => .ok (xs.foldl max x)

/-- Python builtin `min` over the remaining cell values. -/
def pyMin : List ℚ → Except PyError ℚ
  | [] => .error (.valueError "min() arg is an empty sequence")
  | x :: xs => .ok (xs.foldl min x)

/-- `np.mean`; on an empty selection numpy yields NaN (with a runtime warning)
rather than raising — modelled by the rational division convention `0/0 = 0`. -/
def npMean (xs : List ℚ) : ℚ := xs.sum / xs.length

/-- The world visible to the HDF5 pipelines: HDF5 files by path and the cached
mask-array files (`np.save`/`np.load`) by path. -/
structure World where
  files : List (String × H5File)
  disk : MaskCache
  deriving DecidableEq

namespace H5MaskFill

/-- Flat-generation `get_fill_value` (defined locally in H5MaskFill.py): the
`_FillValue` attribute if present, otherwise the default. -/
def get_fill_value (h5_dataset : H5Dataset) (default_fill_value : ℚ) : ℚ :=
  match h5_dataset.fillValueAttr with
  | some v => v
  | none => default_fill_value

/-- Flat-generation `get_mask_array_id`: concatenates the proj4 string, the
transform, the dataset shape and the shapefile path — all resolved through the
*legacy* reader `GridProjectionInfo` — and hashes the result.  `hashFn` models
the `hashlib.sha224(...).hexdigest()` boundary. -/
def get_mask_array_id (hashFn : String → String) (conv : CRSConv)
    (env : List (String × H5Dataset)) (gms : List (String × GridMapping))
    (h5_dataset : H5Dataset) (shape_path : String) : Except PyError String := do
  let proj4 ← GridProjectionInfo.get_hdf_proj4 conv env gms h5_dataset
  let transform ← GridProjectionInfo.get_transform env h5_dataset
  let mask_id := proj4 ++ affineStr transform ++ shapeStr h5_dataset.dims ++ shape_path
  .ok (hashFn mask_id)

/-- Flat-generation `get_mask_array_path`: `os.path.join(cache_dir, mask_id + ".npy")`. -/
def get_mask_array_path (mask_id cache_dir : String) : String :=
  cache_dir ++ "/" ++ mask_id ++ ".npy"

/-- Flat-generation `create_mask_array`: reprojects the shapefile's shapes into
the dataset's (legacy-reader) proj4 CRS and rasterizes them against the
dataset's shape and (legacy-reader) transform. -/
def create_mask_array (engine : MaskEngine) (conv : CRSConv)
    (env : List (String × H5Dataset)) (gms : List (String × GridMapping))
    (h5_dataset : H5Dataset) (shape_path : String) : Except PyError Mask := do
  let proj4 ← GridProjectionInfo.get_hdf_proj4 conv env gms h5_dataset
  let shapes := engine.get_projected_shapes proj4 shape_path
  let transform ← GridProjectionInfo.get_transform env h5_dataset
  .ok (engine.get_mask_array shapes h5_dataset.dims transform)

/-- Flat-generation `get_mask_array`: in-run cache first; then, when the mode's
text contains `use` and the cache file exists on disk, `np.load`; otherwise a
fresh computation; the result is stored in the in-run cache. -/
def get_mask_array (engine : MaskEngine) (hashFn : String → String) (conv : CRSConv)
    (env : List (String × H5Dataset)) (gms : List (String × GridMapping))
    (disk : MaskCache) (h5_dataset : H5Dataset)
    (shape_path cache_dir mask_grid_cache : String) (saved_mask_arrays : MaskCache) :
    Except PyError (Mask × MaskCache) := do
  let mask_id ← get_mask_array_id hashFn conv env gms h5_dataset shape_path
  match alookup saved_mask_arrays mask_id with
  | some m => .ok (m, saved_mask_arrays)
  | none => do
      let mask_array_path := get_mask_array_path mask_id cache_dir
      let mask_array ←
        if strHas mask_grid_cache "use" then
          match alookup disk mask_array_path with
          | some m => Except.ok m
          | none => create_mask_array engine conv env gms h5_dataset shape_path
        else create_mask_array engine conv env gms h5_dataset shape_path
      .ok (mask_array, aset saved_mask_arrays mask_id mask_array)

/-- Flat-generation per-dataset `mask_fill`: skips non-2-D datasets; shows an
interactive preview (display only — no state effect); resolves the mask array;
then, unless the mode is exactly `maskgrid_only`, fills the grid, writes it
back (`write_direct`, modelled by replacing the dataset's grid), shows the
second preview, and recomputes each summary statistic that exists as an
attribute over the cells different from the fill value. -/
def mask_fill (engine : MaskEngine) (hashFn : String → String) (conv : CRSConv)
    (env : List (String × H5Dataset)) (gms : List (String × GridMapping))
    (disk : MaskCache) (shape_path cache_dir mask_grid_cache : String)
    (default_fill_value : ℚ) (h5_dataset : H5Dataset) (saved_mask_arrays : MaskCache) :
    Except PyError (H5Dataset × MaskCache) :=
  if h5_dataset.dims.length ≠ 2 then .ok (h5_dataset, saved_mask_arrays)
  else do
    let resolved ← get_mask_array engine hashFn conv env gms disk h5_dataset
        shape_path cache_dir mask_grid_cache saved_mask_arrays
    let mask_array := resolved.1
    let saved := resolved.2
    if mask_grid_cache ≠ "maskgrid_only" then do
      let fill_value := get_fill_value h5_dataset default_fill_value
      let mask_filled_data := MaskFill.mask_fill_array h5_dataset.grid mask_array fill_value
      let ds := { h5_dataset with grid := mask_filled_data }
      let data := mask_filled_data.flatten.filter (fun v => v ≠ fill_value)
      let ds ← match ds.observedMax with
        | some _ => do
            let m ← pyMax data
            Except.ok { ds with observedMax := some m }
        | none => Except.ok ds
      let ds ← match ds.observedMin with
        | some _ => do
            let m ← pyMin data
            Except.ok { ds with observedMin := some m }
        | none => Except.ok ds
      let ds :=
        match ds.observedMean with
        | some _ => { ds with observedMean := some (npMean data) }
        | none => ds
      .ok (ds, saved)
    else .ok (h5_dataset, saved)

/-- `process_file` / `process_children`: applies the per-dataset step to every
dataset of the file in traversal order, threading the in-run cache and
propagating the first failure. -/
def process_file (step : H5Dataset → MaskCache → Except PyError (H5Dataset × MaskCache)) :
    List H5Dataset → MaskCache → Except PyError (List H5Dataset × MaskCache)
  | [], saved => .ok ([], saved)
  | d :: rest, saved => do
      let stepped ← step d saved
      let restResult ← process_file step rest stepped.2
      .ok (stepped.1 :: restResult.1, restResult.2)

/-- The flat generation's persistence condition (H5MaskFill.py line 46): the
mode's text contains `save`, or the mode is exactly `maskgrid_only`. -/
def flat_save_cond (mask_grid_cache : String) : Bool :=
  strHas mask_grid_cache "save" || mask_grid_cache == "maskgrid_only"

/-- `np.save` of every in-run mask array to `<cache_dir>/<mask_id>.npy`. -/
def save_mask_arrays (cache_dir : String) (saved : MaskCache) (disk : MaskCache) : MaskCache :=
  saved.foldl (fun dk p => aset dk (get_mask_array_path p.1 cache_dir) p.2) disk

/-- Flat-generation `produce_masked_hdf`: lower-cases the mode; the cache
directory is the output directory; for mode exactly `maskgrid_only` processes
the original file in place, otherwise copies the input to the derived output
path (`shutil.copy`) and processes the copy; afterwards persists the in-run
mask arrays when `flat_save_cond` holds; returns `None` for `maskgrid_only`
and the derived output path otherwise. -/
def produce_masked_hdf (engine : MaskEngine) (hashFn : String → String) (conv : CRSConv)
    (hdf_path shape_path output_dir mask_grid_cache_arg : String)
    (default_fill_value : ℚ) (w : World) : Except PyError (World × Option String) := do
  let mask_grid_cache := strToLower mask_grid_cache_arg
  let cache_dir := output_dir
  let processed ←
    if mask_grid_cache == "maskgrid_only" then
      match alookup w.files hdf_path with
      | none => Except.error (.ioError hdf_path)
      | some file => do
          let run ← process_file
              (mask_fill engine hashFn conv (fileEnv file) file.gridMappings w.disk
                shape_path cache_dir mask_grid_cache default_fill_value)
              file.datasets []
          Except.ok
            ({ w with files := aset w.files hdf_path { file with datasets := run.1 } }, run.2)
    else
      match alookup w.files hdf_path with
      | none => Except.error (.ioError hdf_path)
      | some file => do
          let new_file_path := MaskFill.get_masked_file_path hdf_path output_dir
          let w1 : World := { w with files := aset w.files new_file_path file }
          let run ← process_file
              (mask_fill engine hashFn conv (fileEnv file) file.gridMappings w1.disk
                shape_path cache_dir mask_grid_cache default_fill_value)
              file.datasets []
          Except.ok
            ({ w1 with files := aset w1.files new_file_path { file with datasets := run.1 } },
             run.2)
  let w2 : World :=
    if flat_save_cond mask_grid_cache then
      { processed.1 with disk := save_mask_arrays cache_dir processed.2 processed.1.disk }
    else processed.1
  if mask_grid_cache == "maskgrid_only" then .ok (w2, none)
  else .ok (w2, some (MaskFill.get_masked_file_path hdf_path output_dir))

end H5MaskFill

namespace Pymods

namespace MaskFillCaching

/-- Packaged `create_mask_array_id`: concatenation of proj string, transform,
dataset shape and shapefile path, hashed (`hashlib.sha224(...).hexdigest()`,
modelled by `hashFn`). -/
def create_mask_array_id (hashFn : String → String) (proj_string : String)
    (transform : Affine) (dataset_shape : List Nat) (shape_file_path : String) : String :=
  hashFn (proj_string ++ affineStr transform ++ shapeStr dataset_shape ++ shape_file_path)

/-- Packaged `get_mask_array_path_from_id`. -/
def get_mask_array_path_from_id (mask_id cache_dir : String) : String :=
  cache_dir ++ "/" ++ mask_id ++ ".npy"

end MaskFillCaching

namespace H5MaskFill

/-- Packaged `get_mask_array_id`: proj4 string and transform resolved through
the *strict* reader `H5GridProjectionInfo`, then delegated to
`MaskFillCaching.create_mask_array_id`. -/
def get_mask_array_id (hashFn : String → String) (conv : CRSConv)
    (env : List (String × H5Dataset)) (gms : List (String × GridMapping))
    (h5_dataset : H5Dataset) (shape_path : String) : Except PyError String := do
  let proj_string ← H5GridProjectionInfo.get_hdf_proj4 conv env gms h5_dataset
  let transform ← H5GridProjectionInfo.get_transform env h5_dataset
  .ok (MaskFillCaching.create_mask_array_id hashFn proj_string transform
        h5_dataset.dims shape_path)

end H5MaskFill

namespace MaskFillCaching

/-- Packaged `get_mask_array_id` dispatcher: a GeoTIFF path delegates to the
GeoTIFF pipeline's key derivation (`gtiffId`, a boundary here — the packaged
GeotiffMaskFill module is not among the available sources and is modelled from
the spec §4.7); an HDF5 dataset delegates to the packaged H5MaskFill. -/
inductive MaskData where
  | tif (path : String)
  | h5 (d : H5Dataset)

/-- Packaged `get_mask_array_id` (dispatch on the data's type). -/
def get_mask_array_id (gtiffId : String → String → String) (hashFn : String → String)
    (conv : CRSConv) (env : List (String × H5Dataset)) (gms : List (String × GridMapping))
    (data : MaskData) (shape_path : String) : Except PyError String :=
  match data with
  | .tif p =>
      if strEndsWith (strToLower p) ".tif" then .ok (gtiffId p shape_path)
      else .error (.typeError "not a dataset")
  | .h5 d => H5MaskFill.get_mask_array_id hashFn conv env gms d shape_path

/-- Packaged `get_mask_array_path`. -/
def get_mask_array_path (gtiffId : String → String → String) (hashFn : String → String)
    (conv : CRSConv) (env : List (String × H5Dataset)) (gms : List (String × GridMapping))
    (data : MaskData) (shape_path cache_dir : String) : Except PyError String := do
  let mask_id ← get_mask_array_id gtiffId hashFn conv env gms data shape_path
  .ok (get_mask_array_path_from_id mask_id cache_dir)

/-- Packaged `get_cached_mask_array`: returns the on-disk mask array only when
the mode's text contains `use` and the file exists; `None` otherwise. -/
def get_cached_mask_array (gtiffId : String → String → String) (hashFn : String → String)
    (conv : CRSConv) (env : List (String × H5Dataset)) (gms : List (String × GridMapping))
    (disk : MaskCache) (data : MaskData) (shape_path cache_dir mask_grid_cache : String) :
    Except PyError (Option Mask) := do
  let mask_array_path ← get_mask_array_path gtiffId hashFn conv env gms data shape_path cache_dir
  if strHas mask_grid_cache "use" then
    match alookup disk mask_array_path with
    | some m => .ok (some m)
    | none => .ok none
  else .ok none

/-- Packaged `cache_mask_arrays` (the batch save): writes every in-run mask
array to disk unless the mode's text contains `delete`. -/
def cache_mask_arrays (mask_arrays : MaskCache) (cache_dir mask_grid_cache : String)
    (disk : MaskCache) : MaskCache :=
  if ¬ strHas mask_grid_cache "delete" then
    mask_arrays.foldl
      (fun dk p => aset dk (get_mask_array_path_from_id p.1 cache_dir) p.2) disk
  else disk

end MaskFillCaching

namespace H5MaskFill

/-- Packaged `create_mask_array`: strict-reader proj4 and transform. -/
def create_mask_array (engine : MaskEngine) (conv : CRSConv)
    (env : List (String × H5Dataset)) (gms : List (String × GridMapping))
    (h5_dataset : H5Dataset) (shape_path : String) : Except PyError Mask := do
  let proj4 ← H5GridProjectionInfo.get_hdf_proj4 conv env gms h5_dataset
  let shapes := engine.get_projected_shapes proj4 shape_path
  let transform ← H5GridProjectionInfo.get_transform env h5_dataset
  .ok (engine.get_mask_array shapes h5_dataset.dims transform)

/-- Packaged `get_mask_array`: in-run cache first, then the caching component's
`get_cached_mask_array`, then a fresh computation; stores the result in the
in-run cache. -/
def get_mask_array (engine : MaskEngine) (gtiffId : String → String → String)
    (hashFn : String → String) (conv : CRSConv)
    (env : List (String × H5Dataset)) (gms : List (String × GridMapping))
    (disk : MaskCache) (h5_dataset : H5Dataset)
    (shape_path cache_dir mask_grid_cache : String) (saved_mask_arrays : MaskCache) :
    Except PyError (Mask × MaskCache) := do
  let mask_id ← get_mask_array_id hashFn conv env gms h5_dataset shape_path
  match alookup saved_mask_arrays mask_id with
  | some m => .ok (m, saved_mask_arrays)
  | none => do
      let cached ← MaskFillCaching.get_cached_mask_array gtiffId hashFn conv env gms disk
          (.h5 h5_dataset) shape_path cache_dir mask_grid_cache
      let mask_array ←
        match cached with
        | some m => Except.ok m
        | none => create_mask_array engine conv env gms h5_dataset shape_path
      .ok (mask_array, aset saved_mask_arrays mask_id mask_array)

/-- Packaged per-dataset `mask_fill`: identical to the flat step except that
skip decisions and progress are logged rather than plotted and the fill value
is resolved by the strict reader. -/
def mask_fill (engine : MaskEngine) (gtiffId : String → String → String)
    (hashFn : String → String) (conv : CRSConv)
    (env : List (String × H5Dataset)) (gms : List (String × GridMapping))
    (disk : MaskCache) (shape_path cache_dir mask_grid_cache : String)
    (default_fill_value : ℚ) (h5_dataset : H5Dataset) (saved_mask_arrays : MaskCache) :
    Except PyError (H5Dataset × MaskCache) :=
  if h5_dataset.dims.length ≠ 2 then .ok (h5_dataset, saved_mask_arrays)
  else do
    let resolved ← get_mask_array engine gtiffId hashFn conv env gms disk h5_dataset
        shape_path cache_dir mask_grid_cache saved_mask_arrays
    let mask_array := resolved.1
    let saved := resolved.2
    if mask_grid_cache ≠ "maskgrid_only" then do
      let fill_value := H5GridProjectionInfo.get_fill_value h5_dataset default_fill_value
      let mask_filled_data := MaskFill.mask_fill_array h5_dataset.grid mask_array fill_value
      let ds := { h5_dataset with grid := mask_filled_data }
      let unfilled_data := mask_filled_data.flatten.filter (fun v => v ≠ fill_value)
      let ds ← match ds.observedMax with
        | some _ => do
            let m ← pyMax unfilled_data
            Except.ok { ds with observedMax := some m }
        | none => Except.ok ds
      let ds ← match ds.observedMin with
        | some _ => do
            let m ← pyMin unfilled_data
            Except.ok { ds with observedMin := some m }
        | none => Except.ok ds
      let ds :=
        match ds.observedMean with
        | some _ => { ds with observedMean := some (npMean unfilled_data) }
        | none => ds
      .ok (ds, saved)
    else .ok (h5_dataset, saved)

/-- Packaged `process_file`: same traversal as the flat generation. -/
def process_file (step : H5Dataset → MaskCache → Except PyError (H5Dataset × MaskCache)) :
    List H5Dataset → MaskCache → Except PyError (List H5Dataset × MaskCache)
  | [], saved => .ok ([], saved)
  | d :: rest, saved => do
      let stepped ← step d saved
      let restResult ← process_file step rest stepped.2
      .ok (stepped.1 :: restResult.1, restResult.2)

/-- Packaged `produce_masked_hdf`: same in-place/copy split as the flat
generation, but the cache directory is a separate argument and persistence is
delegated to `MaskFillCaching.cache_mask_arrays`; returns the output path for
every mode except `maskgrid_only` (where it returns `None`). -/
def produce_masked_hdf (engine : MaskEngine) (gtiffId : String → String → String)
    (hashFn : String → String) (conv : CRSConv)
    (hdf_path shape_path output_dir cache_dir mask_grid_cache_arg : String)
    (default_fill_value : ℚ) (w : World) : Except PyError (World × Option String) := do
  let mask_grid_cache := strToLower mask_grid_cache_arg
  let processed ←
    if mask_grid_cache == "maskgrid_only" then
      match alookup w.files hdf_path with
      | none => Except.error (.ioError hdf_path)
      | some file => do
          let run ← process_file
              (mask_fill engine gtiffId hashFn conv (fileEnv file) file.gridMappings w.disk
                shape_path cache_dir mask_grid_cache default_fill_value)
              file.datasets []
          Except.ok
            ({ w with files := aset w.files hdf_path { file with datasets := run.1 } }, run.2)
    else
      match alookup w.files hdf_path with
      | none => Except.error (.ioError hdf_path)
      | some file => do
          let new_file_path := MaskFill.get_masked_file_path hdf_path output_dir
          let w1 : World := { w with files := aset w.files new_file_path file }
          let run ← process_file
              (mask_fill engine gtiffId hashFn conv (fileEnv file) file.gridMappings w1.disk
                shape_path cache_dir mask_grid_cache default_fill_value)
              file.datasets []
          Except.ok
            ({ w1 with files := aset w1.files new_file_path { file with datasets := run.1 } },
             run.2)
  let w2 : World :=
    { processed.1 with
      disk := MaskFillCaching.cache_mask_arrays processed.2 cache_dir mask_grid_cache
                processed.1.disk }
  if mask_grid_cache != "maskgrid_only" then
    .ok (w2, some (MaskFill.get_masked_file_path hdf_path output_dir))
  else .ok (w2, none)

end H5MaskFill

end Pymods

namespace MaskFillUtility

/-- CLI argument record (`argparse.Namespace`): `--FILE_URLS`, `--SHAPEFILE`,
`--OUTPUT_DIR` (default: current directory), `--MASK_GRID_CACHE` (default
`ignore_and_delete`), `--DEFAULT_FILL` (default `-9999`). -/
structure Args where
  input_file : Option String
  shape_file : Option String
  output_dir : String
  mask_grid_cache : String
  fill_value : String

/-- Textual representation of an exception, modelling Python `repr(e)`. -/
def py_repr : PyError → String
  | .cfCompliance m => "CFComplianceError(" ++ m ++ ")"
  | .keyError k => "KeyError(" ++ k ++ ")"
  | .typeError m => "TypeError(" ++ m ++ ")"
  | .unboundLocal v => "UnboundLocalError(local variable " ++ v ++ " referenced before assignment)"
  | .indexError m => "IndexError(" ++ m ++ ")"
  | .valueError m => "ValueError(" ++ m ++ ")"
  | .ioError m => "OSError(" ++ m ++ ")"

/-- The `if exit_status == 1 / 2 / 3 / else` chain of `get_xml_error_response`:
resolves the code, the defaulted message and the rendered exit status (the
`else` branch resets the status to `None`, so it renders as `None`). -/
def resolve_error (exit_status : Option Nat) (error_message : Option String)
    (code : String) : String × Option String × Option Nat :=
  if exit_status == some 1 then
    ("InvalidParameterValue",
     some (error_message.getD "Incorrect parameter specified for given dataset(s)."), some 1)
  else if exit_status == some 2 then
    ("MissingParameterValue",
     some (error_message.getD "No parameter value(s) specified for given dataset(s)."), some 2)
  else if exit_status == some 3 then
    ("NoMatchingData",
     some (error_message.getD "No data found that matched the subset constraints."), some 3)
  else (code, error_message, none)

/-- The error-response template up to `<Code>`. -/
def xml_err_a : String :=
  "\n    <?xml version=\"1.0\" encoding=\"UTF-8\" standalone=\"yes\"?>\n    <iesi:Exception\n        xmlns:iesi=\"http://eosdis.nasa.gov/esi/rsp/i\"\n        xmlns:xsi=\"http://www.w3.org/2001/XMLSchema-instance\"\n        xmlns:esi=\"http://eosdis.nasa.gov/esi/rsp\"\n        xmlns:ssw=\"http://newsroom.gsfc.nasa.gov/esi/rsp/ssw\"\n        xmlns:eesi=\"http://eosdis.nasa.gov/esi/rsp/e\"\n        xsi:schemaLocation=\"http://eosdis.nasa.gov/esi/rsp/i \n        http://newsroom.gsfc.nasa.gov/esi/8.1/schemas/ESIAgentResponseInternal.xsd\">\n        "

/-- The template between `</Code>` and the message. -/
def xml_err_b : String := "\n        <Message>\n                "

/-- The template between the message and the rendered exit status. -/
def xml_err_c : String := "\n                MaskFillUtility failed with code "

/-- The closing part of the error template. -/
def xml_err_d : String := "\n        </Message>\n    </iesi:Exception>\n    "

/-- `get_xml_error_response`: renders the ESI-standard XML error response for
the resolved code, message and exit status.  In the source the `code`
parameter defaults to `"InternalError"`; every call site of this embedding
passes that default explicitly. -/
def get_xml_error_response (exit_status : Option Nat) (error_message : Option String)
    (code : String) : String :=
  let resolved := resolve_error exit_status error_message code
  let message := resolved.2.1.getD "An internal error occurred."
  xml_err_a ++ ("<Code>" ++ resolved.1 ++ "</Code>") ++ xml_err_b ++ message ++
    xml_err_c ++ pyStr resolved.2.2 ++ xml_err_d

/-- The success-response template pieces. -/
def xml_succ_a : String :=
  "\n    <?xml version=\"1.0\" encoding=\"UTF-8\" standalone=\"yes\"?>\n    <ns2:agentResponse xmlns:ns2=\"http://eosdis.nasa.gov/esi/rsp/i\">\n        <downloadUrls>\n            "

/-- Between the download URL and `INFILE`. -/
def xml_succ_b : String :=
  "\n        </downloadUrls>\n        <processInfo>\n            <message>\n                INFILE = "

/-- Between `INFILE` and `SHAPEFILE`. -/
def xml_succ_c : String := ",\n                SHAPEFILE = "

/-- Between `SHAPEFILE` and `OUTFILE`. -/
def xml_succ_d : String := ",\n                OUTFILE = "

/-- The closing part of the success template. -/
def xml_succ_e : String :=
  "\n            </message>\n        </processInfo>\n    </ns2:agentResponse>\n    "

/-- `get_xml_success_response`. -/
def get_xml_success_response (input_file shape_file output_file : String) : String :=
  xml_succ_a ++ output_file ++ xml_succ_b ++ input_file ++ xml_succ_c ++ shape_file ++
    xml_succ_d ++ output_file ++ xml_succ_e

/-- The `for path in paths` existence loop: first path that does not exist. -/
def first_missing (path_exists : String → Bool) : List String → Option String
  | [] => none
  | p :: rest => if ¬ path_exists p then some p else first_missing path_exists rest

/-- The Python set `{input_file, shape_file, output_dir}`; its (unspecified)
iteration order is modelled as insertion order with duplicates removed. -/
def path_set (input_file shape_file output_dir : String) : List String :=
  ([input_file, shape_file, output_dir]).dedup

/-- `validate_input_parameters`, with `path_exists` modelling
`os.path.exists`: required arguments first (exit status 2), then file-type
checks (exit status 1), then existence of the three paths (exit status 2,
naming the missing path), then float-parsing of the fill value (exit
status 1); the first failure returns its XML error response. -/
def validate_input_parameters (path_exists : String → Bool) (params : Args) :
    Option String :=
  match params.input_file with
  | none =>
      some (get_xml_error_response (some 2)
        (some "An input data file is required for the mask fill utility") "InternalError")
  | some input_file =>
    match params.shape_file with
    | none =>
        some (get_xml_error_response (some 2)
          (some "A shapefile is required for the mask fill utility") "InternalError")
    | some shape_file =>
      if ¬ strEndsWith input_file ".tif" ∧ ¬ strEndsWith input_file ".h5" then
        some (get_xml_error_response (some 1)
          (some "The input data file must be a GeoTIFF or HDF5 file type") "InternalError")
      else if ¬ strEndsWith shape_file ".shp" then
        some (get_xml_error_response (some 1)
          (some "The input shapefile must be a .shp file type") "InternalError")
      else
        match first_missing path_exists (path_set input_file shape_file params.output_dir) with
        | some path =>
            some (get_xml_error_response (some 2)
              (some ("The path " ++ path ++ " does not exist")) "InternalError")
        | none =>
          match pyFloat params.fill_value with
          | none =>
              some (get_xml_error_response (some 1)
                (some "The default fill value must be a number") "InternalError")
          | some _ => none

/-- The hardened CLI `mask_fill`: validation first (returning its error
response unchanged); then the `try` block — the GeoTIFF/HDF5 dispatch body,
abstracted as `run` since it performs file I/O through the pipelines — whose
`CFComplianceError` is caught specially and rendered with `exit_status=1` and
the fixed message, while every other exception is rendered with
`repr(e)` and no exit status. -/
def mask_fill (path_exists : String → Bool) (run : Args → Except PyError String)
    (args : Args) : String :=
  match validate_input_parameters path_exists args with
  | some error_message => error_message
  | none =>
    match run args with
    | .ok output_file =>
        get_xml_success_response (args.input_file.getD "") (args.shape_file.getD "")
          output_file
    | .error (.cfCompliance _) =>
        get_xml_error_response (some 1)
          (some "The given data file does not follow CF conventions and cannot be mask filled")
          "InternalError"
    | .error e => get_xml_error_response none (some (py_repr e)) "InternalError"

end MaskFillUtility

theorem charsAtHead_extend (p l r : List Char) (h : charsAtHead p l = true) :
    charsAtHead p (l ++ r) = true := by
  induction p generalizing l with
  | nil => rfl
  | cons c cs ih =>
      cases l with
      | nil => simp [charsAtHead] at h
      | cons d ds =>
          simp only [charsAtHead, Bool.and_eq_true] at h
          simp only [List.cons_append, charsAtHead, Bool.and_eq_true]
          exact ⟨h.1, ih ds h.2⟩

theorem hasSubChars_append_of_left (p l r : List Char) (h : hasSubChars p l = true) :
    hasSubChars p (l ++ r) = true := by
  induction l with
  | nil =>
      cases p with
      | nil =>
          cases r with
          | nil => rfl
          | cons c cs => simp [hasSubChars, charsAtHead]
      | cons c cs => simp [hasSubChars] at h
  | cons c cs ih =>
      simp only [hasSubChars, Bool.or_eq_true] at h
      simp only [List.cons_append, hasSubChars, Bool.or_eq_true]
      rcases h with h | h
      · exact Or.inl (charsAtHead_extend _ _ _ h)
      · exact Or.inr (ih h)

theorem strHas_append_right (s t pat : String) (h : strHas s pat = true) :
    strHas (s ++ t) pat = true := by
  unfold strHas at h ⊢
  rw [string_toList_append]
  exact hasSubChars_append_of_left _ _ _ h

theorem strHas_append_left (s t pat : String) (h : strHas t pat = true) :
    strHas (s ++ t) pat = true := by
  unfold strHas at h ⊢
  rw [string_toList_append]
  exact hasSubChars_append_of_right _ _ _ h

theorem strHas_self (pat : String) : strHas pat pat = true := by
  have h := hasSubChars_self_append pat.toList []
  unfold strHas
  simpa using h

/-- A single mask-filled row keeps True-masked cells and fills False-masked ones. -/
theorem mask_fill_row_spec (r : List ℚ) (m : List Bool) (f : ℚ)
    (h : m.length = r.length) :
    (List.zipWith (fun v b => if b then v else f) r m).length = r.length ∧
    ∀ j, j < r.length →
      (List.zipWith (fun v b => if b then v else f) r m).getD j 0 =
        if m.getD j false then r.getD j 0 else f := by
  induction r generalizing m with
  | nil => exact ⟨by simp, by simp⟩
  | cons v vs ih =>
      cases m with
      | nil => simp at h
      | cons b bs =>
          have h' : bs.length = vs.length := by simpa using h
          obtain ⟨ihlen, ihval⟩ := ih bs h'
          refine ⟨by simpa [List.zipWith] using ihlen, ?_⟩
          intro j hj
          cases j with
          | zero => simp [List.zipWith]
          | succ k =>
              have hk : k < vs.length := by
                simpa [Nat.succ_lt_succ_iff] using hj
              simpa [List.zipWith, List.getD_cons_succ] using ihval k hk

/-- C1: for any raster grid `R` and boolean mask grid `M` of the same shape and
any fill value `f`, `MaskFill.mask_fill_array R M f` has `R`'s shape, equals
`R` at every index where `M` is true and equals `f` at every index where `M`
is false; the embedding is a pure function over grids of a single numeric
type, so the returned grid has `R`'s type and `R` itself is not mutated. -/
theorem c1_apply_mask_fill_correct
    (R : List (List ℚ)) (M : List (List Bool)) (f : ℚ)
    (hlen : M.length = R.length)
    (hrow : ∀ i, i < R.length → (M.getD i []).length = (R.getD i []).length) :
    (MaskFill.mask_fill_array R M f).length = R.length ∧
    (∀ i, i < R.length →
      ((MaskFill.mask_fill_array R M f).getD i []).length = (R.getD i []).length) ∧
    (∀ i j, i < R.length → j < (R.getD i []).length →
      ((MaskFill.mask_fill_array R M f).getD i []).getD j 0 =
        if (M.getD i []).getD j false then (R.getD i []).getD j 0 else f) := by
  induction R generalizing M with
  | nil => exact ⟨by simp [MaskFill.mask_fill_array], by simp, by simp⟩
  | cons r rs ih =>
      cases M with
      | nil => simp at hlen
      | cons m ms =>
          have hlen' : ms.length = rs.length := by simpa using hlen
          have hrow0 : m.length = r.length := by
            simpa using hrow 0 (by simp)
          have hrow' : ∀ i, i < rs.length → (ms.getD i []).length = (rs.getD i []).length := by
            intro i hi
            simpa [List.getD_cons_succ] using hrow (i + 1) (by simpa [Nat.succ_lt_succ_iff] using hi)
          obtain ⟨ihlen, ihrowlen, ihval⟩ := ih ms hlen' hrow'
          obtain ⟨rowlen, rowval⟩ := mask_fill_row_spec r m f hrow0
          refine ⟨by simpa [MaskFill.mask_fill_array, List.zipWith] using ihlen, ?_, ?_⟩
          · intro i hi
            cases i with
            | zero => simpa [MaskFill.mask_fill_array, List.zipWith] using rowlen
            | succ k =>
                have hk : k < rs.length := by simpa [Nat.succ_lt_succ_iff] using hi
                simpa [MaskFill.mask_fill_array, List.zipWith, List.getD_cons_succ] using
                  ihrowlen k hk
          · intro i j hi hj
            cases i with
            | zero =>
                simp only [List.getD_cons_zero] at hj ⊢
                simpa [MaskFill.mask_fill_array, List.zipWith] using rowval j hj
            | succ k =>
                have hk : k < rs.length := by simpa [Nat.succ_lt_succ_iff] using hi
                simp only [List.getD_cons_succ] at hj ⊢
                simpa [MaskFill.mask_fill_array, List.zipWith, List.getD_cons_succ] using
                  ihval k j hk hj

/-- C1 witness: the theorem applied to a concrete 2×2 raster, mask and fill value. -/
theorem c1_apply_mask_fill_correct_witness :
    (MaskFill.mask_fill_array [[(1:ℚ), 2], [3, 4]] [[true, false], [false, true]] 9).length =
      ([[(1:ℚ), 2], [3, 4]]).length ∧
    (∀ i, i < ([[(1:ℚ), 2], [3, 4]]).length →
      ((MaskFill.mask_fill_array [[(1:ℚ), 2], [3, 4]] [[true, false], [false, true]] 9).getD i
          []).length = (([[(1:ℚ), 2], [3, 4]]).getD i []).length) ∧
    (∀ i j, i < ([[(1:ℚ), 2], [3, 4]]).length →
      j < (([[(1:ℚ), 2], [3, 4]]).getD i []).length →
      ((MaskFill.mask_fill_array [[(1:ℚ), 2], [3, 4]] [[true, false], [false, true]] 9).getD i
          []).getD j 0 =
        if (([[true, false], [false, true]]).getD i []).getD j false then
          (([[(1:ℚ), 2], [3, 4]]).getD i []).getD j 0
        else 9) :=
  c1_apply_mask_fill_correct [[(1:ℚ), 2], [3, 4]] [[true, false], [false, true]] 9
    (by simp) (by decide)

/-- C2 counterexample: a concrete run of the hardened CLI whose pipeline body
raises a CF-compliance error.  The rendered response does *not* contain
`<Code>InternalError</Code>` (its code element is `InvalidParameterValue`,
because the handler passes `exit_status=1`), while the message does contain
the fixed CF text — refuting the claim's `InternalError` code. -/
theorem c2_counterexample :
    strHas
      (MaskFillUtility.mask_fill (fun _ => true)
        (fun _ => .error (.cfCompliance "missing DIMENSION_LIST"))
        ⟨some "granule.h5", some "region.shp", "out", "ignore_and_delete", "-9999"⟩)
      "<Code>InternalError</Code>" = false ∧
    strHas
      (MaskFillUtility.mask_fill (fun _ => true)
        (fun _ => .error (.cfCompliance "missing DIMENSION_LIST"))
        ⟨some "granule.h5", some "region.shp", "out", "ignore_and_delete", "-9999"⟩)
      "<Code>InvalidParameterValue</Code>" = true := by
  constructor
  · decide
  · decide

/-- C2 (amended): for every input whose processing raises a CF-compliance
error, the hardened CLI's XML error response has
`<Code>InvalidParameterValue</Code>` (the handler passes exit status 1, not
the generic InternalError code) and its message text contains
"does not follow CF conventions". -/
theorem c2_cf_error_response (path_exists : String → Bool)
    (run : MaskFillUtility.Args → Except PyError String)
    (args : MaskFillUtility.Args) (m : String)
    (hv : MaskFillUtility.validate_input_parameters path_exists args = none)
    (hr : run args = .error (.cfCompliance m)) :
    MaskFillUtility.mask_fill path_exists run args =
      MaskFillUtility.get_xml_error_response (some 1)
        (some "The given data file does not follow CF conventions and cannot be mask filled")
        "InternalError" ∧
    strHas (MaskFillUtility.mask_fill path_exists run args)
      "<Code>InvalidParameterValue</Code>" = true ∧
    strHas (MaskFillUtility.mask_fill path_exists run args)
      "does not follow CF conventions" = true := by
  have hresp : MaskFillUtility.mask_fill path_exists run args =
      MaskFillUtility.get_xml_error_response (some 1)
        (some "The given data file does not follow CF conventions and cannot be mask filled")
        "InternalError" := by
    unfold MaskFillUtility.mask_fill
    rw [hv, hr]
  refine ⟨hresp, ?_, ?_⟩
  · rw [hresp]
    unfold MaskFillUtility.get_xml_error_response
    apply strHas_append_right
    apply strHas_append_right
    apply strHas_append_right
    apply strHas_append_right
    apply strHas_append_right
    apply strHas_append_left
    show strHas ("<Code>" ++ "InvalidParameterValue" ++ "</Code>") _ = true
    decide
  · rw [hresp]
    decide

/-- C2 witness: the amended theorem applied at a concrete CLI invocation whose
pipeline body raises a CF-compliance error. -/
theorem c2_cf_error_response_witness :
    MaskFillUtility.mask_fill (fun _ => true)
      (fun _ => .error (.cfCompliance "missing units"))
      ⟨some "granule.h5", some "region.shp", "out", "use_cache", "-9999"⟩ =
      MaskFillUtility.get_xml_error_response (some 1)
        (some "The given data file does not follow CF conventions and cannot be mask filled")
        "InternalError" ∧
    strHas
      (MaskFillUtility.mask_fill (fun _ => true)
        (fun _ => .error (.cfCompliance "missing units"))
        ⟨some "granule.h5", some "region.shp", "out", "use_cache", "-9999"⟩)
      "<Code>InvalidParameterValue</Code>" = true ∧
    strHas
      (MaskFillUtility.mask_fill (fun _ => true)
        (fun _ => .error (.cfCompliance "missing units"))
        ⟨some "granule.h5", some "region.shp", "out", "use_cache", "-9999"⟩)
      "does not follow CF conventions" = true :=
  c2_cf_error_response (fun _ => true)
    (fun _ => .error (.cfCompliance "missing units"))
    ⟨some "granule.h5", some "region.shp", "out", "use_cache", "-9999"⟩
    "missing units" (by decide) rfl

theorem first_missing_spec (path_exists : String → Bool) (l : List String) (p : String)
    (h : MaskFillUtility.first_missing path_exists l = some p) :
    path_exists p = false ∧ p ∈ l := by
  induction l with
  | nil => simp [MaskFillUtility.first_missing] at h
  | cons q rest ih =>
      by_cases hq : path_exists q
      · simp only [MaskFillUtility.first_missing, hq, not_true, if_neg,
          Bool.not_eq_true, not_false_eq_true] at h
        have h' := ih (by simpa [hq] using h)
        exact ⟨h'.1, List.mem_cons_of_mem q h'.2⟩
      · simp only [Bool.not_eq_true] at hq
        simp only [MaskFillUtility.first_missing, hq, Bool.false_eq_true,
          not_false_eq_true, if_pos, Option.some.injEq] at h
        subst h
        exact ⟨hq, List.mem_cons_self q rest⟩

/-- C7 counterexample: an argument vector with well-formed names and
extensions whose shapefile path does not exist *and* whose fill value is
non-numeric.  The code returns the MissingParameterValue existence response —
the existence check runs before the fill-value check — whereas the claim's
ordering (extension and fill-value checks before existence checks) predicts
the InvalidParameterValue fill response. -/
theorem c7_counterexample :
    MaskFillUtility.validate_input_parameters (fun p => !(p == "region.shp"))
        ⟨some "granule.h5", some "region.shp", "out", "ignore_and_delete", "abc"⟩ =
      some (MaskFillUtility.get_xml_error_response (some 2)
        (some "The path region.shp does not exist") "InternalError") ∧
    strHas (MaskFillUtility.get_xml_error_response (some 2)
        (some "The path region.shp does not exist") "InternalError")
      "<Code>MissingParameterValue</Code>" = true ∧
    strHas (MaskFillUtility.get_xml_error_response (some 2)
        (some "The path region.shp does not exist") "InternalError")
      "<Code>InvalidParameterValue</Code>" = false := by
  refine ⟨by decide, by decide, by decide⟩

/-- C7 (amended): validation order and error codes — a missing input file or
shapefile yields the MissingParameterValue response (exit status 2); an input
file not ending in `.tif`/`.h5` or a shapefile not ending in `.shp` yields the
InvalidParameterValue response (exit status 1); a supplied input-file,
shapefile or output-directory path that does not exist yields the
MissingParameterValue response naming that path — this existence check runs
*before* the numeric check of the fill value, which yields the
InvalidParameterValue response only when all three paths exist; the first
failure short-circuits, and a validation failure is returned by the CLI
before any pipeline work. -/
theorem c7_validation_order (path_exists : String → Bool)
    (args : MaskFillUtility.Args) :
    (args.input_file = none →
      MaskFillUtility.validate_input_parameters path_exists args =
        some (MaskFillUtility.get_xml_error_response (some 2)
          (some "An input data file is required for the mask fill utility") "InternalError")) ∧
    (∀ i, args.input_file = some i → args.shape_file = none →
      MaskFillUtility.validate_input_parameters path_exists args =
        some (MaskFillUtility.get_xml_error_response (some 2)
          (some "A shapefile is required for the mask fill utility") "InternalError")) ∧
    (∀ i s, args.input_file = some i → args.shape_file = some s →
      strEndsWith i ".tif" = false → strEndsWith i ".h5" = false →
      MaskFillUtility.validate_input_parameters path_exists args =
        some (MaskFillUtility.get_xml_error_response (some 1)
          (some "The input data file must be a GeoTIFF or HDF5 file type") "InternalError")) ∧
    (∀ i s, args.input_file = some i → args.shape_file = some s →
      (strEndsWith i ".tif" = true ∨ strEndsWith i ".h5" = true) →
      strEndsWith s ".shp" = false →
      MaskFillUtility.validate_input_parameters path_exists args =
        some (MaskFillUtility.get_xml_error_response (some 1)
          (some "The input shapefile must be a .shp file type") "InternalError")) ∧
    (∀ i s p, args.input_file = some i → args.shape_file = some s →
      (strEndsWith i ".tif" = true ∨ strEndsWith i ".h5" = true) →
      strEndsWith s ".shp" = true →
      MaskFillUtility.first_missing path_exists
        (MaskFillUtility.path_set i s args.output_dir) = some p →
      path_exists p = false ∧
      MaskFillUtility.validate_input_parameters path_exists args =
        some (MaskFillUtility.get_xml_error_response (some 2)
          (some ("The path " ++ p ++ " does not exist")) "InternalError")) ∧
    (∀ i s, args.input_file = some i → args.shape_file = some s →
      (strEndsWith i ".tif" = true ∨ strEndsWith i ".h5" = true) →
      strEndsWith s ".shp" = true →
      MaskFillUtility.first_missing path_exists
        (MaskFillUtility.path_set i s args.output_dir) = none →
      pyFloat args.fill_value = none →
      MaskFillUtility.validate_input_parameters path_exists args =
        some (MaskFillUtility.get_xml_error_response (some 1)
          (some "The default fill value must be a number") "InternalError")) ∧
    (∀ err, MaskFillUtility.validate_input_parameters path_exists args = some err →
      ∀ run : MaskFillUtility.Args → Except PyError String,
        MaskFillUtility.mask_fill path_exists run args = err) := by
  refine ⟨?_, ?_, ?_, ?_, ?_, ?_, ?_⟩
  · intro h
    unfold MaskFillUtility.validate_input_parameters
    rw [h]
  · intro i h hs
    unfold MaskFillUtility.validate_input_parameters
    rw [h, hs]
  · intro i s hi hs h1 h2
    unfold MaskFillUtility.validate_input_parameters
    rw [hi, hs]
    simp [h1, h2]
  · intro i s hi hs hext h3
    unfold MaskFillUtility.validate_input_parameters
    rw [hi, hs]
    rcases hext with h | h <;> simp [h, h3]
  · intro i s p hi hs hext h3 hm
    refine ⟨(first_missing_spec path_exists _ p hm).1, ?_⟩
    unfold MaskFillUtility.validate_input_parameters
    rw [hi, hs]
    rcases hext with h | h <;> simp [h, h3, hm]
  · intro i s hi hs hext h3 hm hf
    unfold MaskFillUtility.validate_input_parameters
    rw [hi, hs]
    rcases hext with h | h <;> simp [h, h3, hm, hf]
  · intro err herr run
    unfold MaskFillUtility.mask_fill
    rw [herr]

/-- C7 witness: the amended theorem applied at a concrete argument vector with
a nonexistent shapefile path and a non-numeric fill value. -/
theorem c7_validation_order_witness :
    (fun p => !(p == "region.shp")) "region.shp" = false ∧
    MaskFillUtility.validate_input_parameters (fun p => !(p == "region.shp"))
        ⟨some "granule.h5", some "region.shp", "out", "ignore_and_delete", "abc"⟩ =
      some (MaskFillUtility.get_xml_error_response (some 2)
        (some ("The path " ++ "region.shp" ++ " does not exist")) "InternalError") :=
  (c7_validation_order (fun p => !(p == "region.shp"))
      ⟨some "granule.h5", some "region.shp", "out", "ignore_and_delete", "abc"⟩).2.2.2.2.1
    "granule.h5" "region.shp" "region.shp" rfl rfl (Or.inr (by decide)) (by decide) (by decide)

/-- Observation renderer for a CRS description: lists the keys of the
description as proj4-style flags, so the presence of `lat_ts` is visible in
the rendered string. -/
def projKeysStr (l : List (String × AttrVal)) : String :=
  String.intercalate " " (l.map (fun kv => "+" ++ kv.1))

/-- A grid mapping whose CF parameters contain `standard_parallel`. -/
def gmWithSP : GridMapping :=
  ⟨[("grid_mapping_name", .bytes "polar_stereographic"), ("standard_parallel", .num 60)]⟩

/-- A conversion whose derived CRS description uses proj4 parameter names
(`lat_ts`, not the CF name `standard_parallel`), as proj4 dictionaries do. -/
def convProjNames : CRSConv :=
  ⟨fun _ => [("proj", .str "stere")], projKeysStr⟩

/-- A grid mapping whose CF parameters lack `standard_parallel`. -/
def gmNoSP : GridMapping := ⟨[("grid_mapping_name", .bytes "mercator")]⟩

/-- A conversion whose derived CRS description happens to contain a
`standard_parallel` key. -/
def convEchoSP : CRSConv :=
  ⟨fun _ => [("standard_parallel", .num 60)], projKeysStr⟩

/-- C5: the strict reader's `get_proj4` guards the `standard_parallel` →
`lat_ts` copy with membership in the *derived* CRS description
(`'standard_parallel' in dictionary`), not in the CF parameters, while reading
the copied value from the CF parameters.  Evaluating the embedded code: with
`standard_parallel` present in the CF parameters but not in the derived
description the copy is not performed (no `lat_ts` key appears), refuting the
claimed "performed if and only if present in the CF parameters"; and with a
derived description containing the key while the CF parameters lack it, the
call fails with exactly the key-not-found failure the claim rules out. -/
theorem c5_standard_parallel_guard_bug :
    (acontains (decode_bytes gmWithSP.attrs) "standard_parallel" = true ∧
     H5GridProjectionInfo.get_proj4 convProjNames gmWithSP = .ok "+proj" ∧
     strHas "+proj" "lat_ts" = false) ∧
    (acontains (decode_bytes gmNoSP.attrs) "standard_parallel" = false ∧
     H5GridProjectionInfo.get_proj4 convEchoSP gmNoSP =
       .error (.keyError "standard_parallel")) := by
  refine ⟨⟨by decide, ?_, by decide⟩, ⟨by decide, ?_⟩⟩
  · show H5GridProjectionInfo.get_proj4 convProjNames gmWithSP = .ok "+proj"
    rfl
  · rfl

theorem exceptBind_ok {ε α β : Type} (a : α) (f : α → Except ε β) :
    ((Except.ok a : Except ε α) >>= f) = f a := rfl

theorem exceptBind_error {ε α β : Type} (e : ε) (f : α → Except ε β) :
    ((Except.error e : Except ε α) >>= f) = Except.error e := rfl

theorem assignDims_error_not_cf (env : List (String × H5Dataset)) (dims : List Nat)
    (refs : List String) (x0 y0 : Option H5Dataset) (e : PyError)
    (h : assignDims env dims refs x0 y0 = .error e) : e.isCF = false := by
  induction refs generalizing x0 y0 with
  | nil => simp [assignDims] at h
  | cons r rest ih =>
      unfold assignDims at h
      cases hl : alookup env r with
      | none =>
          rw [hl] at h
          obtain rfl : PyError.keyError r = e := by simpa using h
          rfl
      | some dim =>
          rw [hl] at h
          cases h0 : dims.get? 0 with
          | none =>
              rw [h0] at h
              obtain rfl : PyError.indexError "shape index out of range" = e := by simpa using h
              rfl
          | some rows =>
              rw [h0] at h
              cases h1 : dims.get? 1 with
              | none =>
                  rw [h1] at h
                  obtain rfl : PyError.indexError "shape index out of range" = e := by
                    simpa using h
                  rfl
              | some cols =>
                  rw [h1] at h
                  exact ih _ _ h

theorem strict_gdd_some_error_not_cf (env : List (String × H5Dataset)) (d : H5Dataset)
    (refs : List String) (e : PyError) (hdl : d.dimensionList = some refs)
    (h : H5GridProjectionInfo.get_dimension_datasets env d = .error e) : e.isCF = false := by
  unfold H5GridProjectionInfo.get_dimension_datasets at h
  simp only [hdl] at h
  cases ha : assignDims env d.dims refs none none with
  | error e' =>
      rw [ha, exceptBind_error] at h
      obtain rfl : e' = e := by simpa using h
      exact assignDims_error_not_cf env d.dims refs none none _ ha
  | ok p =>
      rw [ha, exceptBind_ok] at h
      cases hx : p.1 with
      | none =>
          rw [hx] at h
          obtain rfl : PyError.unboundLocal "x" = e := by simpa using h
          rfl
      | some x =>
          rw [hx] at h
          cases hy : p.2 with
          | none =>
              rw [hy] at h
              obtain rfl : PyError.unboundLocal "y" = e := by simpa using h
              rfl
          | some y =>
              rw [hy] at h
              simp at h

theorem strict_get_proj4_error_not_cf (conv : CRSConv) (gm : GridMapping) (e : PyError)
    (h : H5GridProjectionInfo.get_proj4 conv gm = .error e) : e.isCF = false := by
  unfold H5GridProjectionInfo.get_proj4 at h
  by_cases hc :
      acontains (conv.fromCf (decode_bytes gm.attrs)) "standard_parallel" = true
  · simp only [hc, if_true] at h
    cases hl : alookup (decode_bytes gm.attrs) "standard_parallel" with
    | none =>
        rw [hl] at h
        obtain rfl : PyError.keyError "standard_parallel" = e := by simpa using h
        rfl
    | some v =>
        rw [hl] at h
        simp at h
  · simp only [Bool.not_eq_true] at hc
    simp only [hc, Bool.false_eq_true, if_false] at h
    simp at h

/-- C6 (amended): the strict reader's `get_hdf_proj4` raises a CF-compliance
error exactly when the dataset lacks `DIMENSION_LIST`, or the dimension
datasets resolve and the first (`dimensions[0]`, the x-slot) lacks a `units`
attribute, or they resolve with units not containing "degrees" and the dataset
lacks a `grid_mapping` attribute; no other branch raises a CF-compliance
error.  The `DIMENSION_LIST` and `units` error messages carry the processed
dataset's name (the `units` message names the processed dataset, not the
offending dimension-scale dataset), while the missing-`grid_mapping` message
is a fixed sentence carrying no dataset name. -/
theorem c6_cf_error_characterization (conv : CRSConv) (env : List (String × H5Dataset))
    (gms : List (String × GridMapping)) (d : H5Dataset) :
    ((∃ m, H5GridProjectionInfo.get_hdf_proj4 conv env gms d = .error (.cfCompliance m)) ↔
      (d.dimensionList = none ∨
       (∃ x y, H5GridProjectionInfo.get_dimension_datasets env d = .ok (x, y) ∧
          x.units = none) ∨
       (∃ x y u, H5GridProjectionInfo.get_dimension_datasets env d = .ok (x, y) ∧
          x.units = some u ∧ strHas u "degrees" = false ∧ d.gridMapping = none))) ∧
    (d.dimensionList = none →
      H5GridProjectionInfo.get_hdf_proj4 conv env gms d =
        .error (.cfCompliance
          ("The dataset " ++ d.name ++ " does not have a DIMENSION_LIST attribute"))) ∧
    (∀ x y, H5GridProjectionInfo.get_dimension_datasets env d = .ok (x, y) →
      x.units = none →
      H5GridProjectionInfo.get_hdf_proj4 conv env gms d =
        .error (.cfCompliance
          ("The dataset " ++ d.name ++ " does not have a units attribute"))) ∧
    (∀ x y u, H5GridProjectionInfo.get_dimension_datasets env d = .ok (x, y) →
      x.units = some u → strHas u "degrees" = false → d.gridMapping = none →
      H5GridProjectionInfo.get_hdf_proj4 conv env gms d =
        .error (.cfCompliance
          "The dataset is not geographically gridded and does not have a grid mapping attribute")) := by
  have h2 : d.dimensionList = none →
      H5GridProjectionInfo.get_hdf_proj4 conv env gms d =
        .error (.cfCompliance
          ("The dataset " ++ d.name ++ " does not have a DIMENSION_LIST attribute")) := by
    intro hn
    have hg : H5GridProjectionInfo.get_dimension_datasets env d =
        .error (.cfCompliance
          ("The dataset " ++ d.name ++ " does not have a DIMENSION_LIST attribute")) := by
      unfold H5GridProjectionInfo.get_dimension_datasets
      simp only [hn]
    unfold H5GridProjectionInfo.get_hdf_proj4
    rw [hg, exceptBind_error]
  have h3 : ∀ x y, H5GridProjectionInfo.get_dimension_datasets env d = .ok (x, y) →
      x.units = none →
      H5GridProjectionInfo.get_hdf_proj4 conv env gms d =
        .error (.cfCompliance
          ("The dataset " ++ d.name ++ " does not have a units attribute")) := by
    intro x y hg hu
    unfold H5GridProjectionInfo.get_hdf_proj4
    rw [hg, exceptBind_ok]
    simp only [hu]
  have h4 : ∀ x y u, H5GridProjectionInfo.get_dimension_datasets env d = .ok (x, y) →
      x.units = some u → strHas u "degrees" = false → d.gridMapping = none →
      H5GridProjectionInfo.get_hdf_proj4 conv env gms d =
        .error (.cfCompliance
          "The dataset is not geographically gridded and does not have a grid mapping attribute") := by
    intro x y u hg hu hdeg hgm
    unfold H5GridProjectionInfo.get_hdf_proj4
    rw [hg, exceptBind_ok]
    simp only [hu, hdeg, hgm, Bool.false_eq_true, if_false]
  refine ⟨⟨?_, ?_⟩, h2, h3, h4⟩
  · rintro ⟨m, hm⟩
    unfold H5GridProjectionInfo.get_hdf_proj4 at hm
    cases hg : H5GridProjectionInfo.get_dimension_datasets env d with
    | error e =>
        rw [hg, exceptBind_error] at hm
        obtain rfl : e = PyError.cfCompliance m := by simpa using hm
        cases hdl : d.dimensionList with
        | none => exact Or.inl rfl
        | some refs =>
            have hnot := strict_gdd_some_error_not_cf env d refs _ hdl hg
            simp [PyError.isCF] at hnot
    | ok p =>
        obtain ⟨x, y⟩ := p
        rw [hg, exceptBind_ok] at hm
        dsimp only at hm
        cases hu : x.units with
        | none => exact Or.inr (Or.inl ⟨x, y, rfl, hu⟩)
        | some u =>
            simp only [hu] at hm
            by_cases hdeg : strHas u "degrees" = true
            · simp only [hdeg, if_true] at hm
              cases hm
            · simp only [Bool.not_eq_true] at hdeg
              simp only [hdeg, Bool.false_eq_true, if_false] at hm
              cases hgm : d.gridMapping with
              | none => exact Or.inr (Or.inr ⟨x, y, u, rfl, hu, hdeg, rfl⟩)
              | some gmName =>
                  simp only [hgm] at hm
                  cases hl : alookup gms gmName with
                  | none =>
                      rw [hl] at hm
                      simp at hm
                  | some gm =>
                      rw [hl] at hm
                      have hnot := strict_get_proj4_error_not_cf conv gm _ hm
                      simp [PyError.isCF] at hnot
  · rintro (hn | ⟨x, y, hg, hu⟩ | ⟨x, y, u, hg, hu, hdeg, hgm⟩)
    · exact ⟨_, h2 hn⟩
    · exact ⟨_, h3 x y hg hu⟩
    · exact ⟨_, h4 x y u hg hu hdeg hgm⟩

/-- A 1-D dimension-scale dataset of length 2 (the y dimension). -/
def dimLatC6 : H5Dataset :=
  ⟨"/lat", [2], [], [0, 1], none, none, none, none, none, none, none⟩

/-- A 1-D dimension-scale dataset of length 3 with non-geographic units (the
x dimension). -/
def dimLonC6 : H5Dataset :=
  ⟨"/lon", [3], [], [0, 1, 2], none, some "meters", none, none, none, none, none⟩

/-- A 2×3 dataset with a `DIMENSION_LIST`, non-geographic units on its x
dimension and no `grid_mapping` attribute. -/
def dsC6 : H5Dataset :=
  ⟨"/science", [2, 3], [], [], some ["/lat", "/lon"], none, none, none, none, none, none⟩

/-- The reference environment of the C6 fixture file. -/
def envC6 : List (String × H5Dataset) := [("/lat", dimLatC6), ("/lon", dimLonC6)]

/-- A trivial CRS conversion (never reached by the fixtures that use it). -/
def convTriv : CRSConv := ⟨fun l => l, fun _ => "proj4"⟩

/-- C6 counterexample: on a concrete non-geographic dataset lacking
`grid_mapping`, the strict reader raises the CF-compliance error with the
fixed message that does *not* contain the offending dataset's name —
refuting the claim that every such error carries the dataset's name. -/
theorem c6_counterexample :
    H5GridProjectionInfo.get_hdf_proj4 convTriv envC6 [] dsC6 =
      .error (.cfCompliance
        "The dataset is not geographically gridded and does not have a grid mapping attribute") ∧
    dsC6.name = "/science" ∧
    strHas
      "The dataset is not geographically gridded and does not have a grid mapping attribute"
      "/science" = false := by
  refine ⟨by rfl, by rfl, by decide⟩

/-- C6 witness: the amended characterization applied at the concrete fixture,
projecting the missing-`grid_mapping` message conjunct. -/
theorem c6_cf_error_characterization_witness :
    H5GridProjectionInfo.get_dimension_datasets envC6 dsC6 = .ok (dimLonC6, dimLatC6) ∧
    H5GridProjectionInfo.get_hdf_proj4 convTriv envC6 [] dsC6 =
      .error (.cfCompliance
        "The dataset is not geographically gridded and does not have a grid mapping attribute") :=
  ⟨by rfl,
   (c6_cf_error_characterization convTriv envC6 [] dsC6).2.2.2 dimLonC6 dimLatC6 "meters"
     (by rfl) (by rfl) (by decide) (by rfl)⟩

theorem assignDims_x_stays_none (env : List (String × H5Dataset)) (dims : List Nat)
    (rows cols : Nat) (h0 : dims.get? 0 = some rows) (h1 : dims.get? 1 = some cols)
    (refs : List String) (y0 : Option H5Dataset)
    (hres : ∀ r ∈ refs, (alookup env r).isSome)
    (hnom : ∀ r ∈ refs, ∀ dim, alookup env r = some dim → dimLen dim ≠ cols) :
    ∃ yr, assignDims env dims refs none y0 = .ok (none, yr) := by
  induction refs generalizing y0 with
  | nil => exact ⟨y0, rfl⟩
  | cons r rest ih =>
      obtain ⟨dim, hdim⟩ :=
        Option.isSome_iff_exists.mp (hres r (List.mem_cons_self r rest))
      have hne : dimLen dim ≠ cols := hnom r (List.mem_cons_self r rest) dim hdim
      have hbeq : (dimLen dim == cols) = false := by simp [hne]
      unfold assignDims
      simp only [hdim, h0, h1, hbeq, Bool.false_eq_true, if_false]
      exact ih _ (fun q hq => hres q (List.mem_cons_of_mem r hq))
        (fun q hq dim' h' => hnom q (List.mem_cons_of_mem r hq) dim' h')

theorem assignDims_y_stays_none (env : List (String × H5Dataset)) (dims : List Nat)
    (rows cols : Nat) (h0 : dims.get? 0 = some rows) (h1 : dims.get? 1 = some cols)
    (refs : List String) (x0 : Option H5Dataset)
    (hres : ∀ r ∈ refs, (alookup env r).isSome)
    (hnom : ∀ r ∈ refs, ∀ dim, alookup env r = some dim → dimLen dim ≠ rows) :
    ∃ xr, assignDims env dims refs x0 none = .ok (xr, none) := by
  induction refs generalizing x0 with
  | nil => exact ⟨x0, rfl⟩
  | cons r rest ih =>
      obtain ⟨dim, hdim⟩ :=
        Option.isSome_iff_exists.mp (hres r (List.mem_cons_self r rest))
      have hne : dimLen dim ≠ rows := hnom r (List.mem_cons_self r rest) dim hdim
      have hbeq : (dimLen dim == rows) = false := by simp [hne]
      unfold assignDims
      simp only [hdim, h0, h1, hbeq, Bool.false_eq_true, if_false]
      exact ih _ (fun q hq => hres q (List.mem_cons_of_mem r hq))
        (fun q hq dim' h' => hnom q (List.mem_cons_of_mem r hq) dim' h')

/-- C10: in both readers, when `DIMENSION_LIST` is present and resolvable but
no referenced dimension-scale dataset's length equals the second-axis length
(`shape[1]`, the x slot) or none equals the first-axis length (`shape[0]`, the
y slot), `get_dimension_datasets` fails with an unbound-local failure (`x` or
`y` never assigned); in the strict reader this failure is not a CF-compliance
error, so it escapes the distinguished CF error handling. -/
theorem c10_unbound_dimension_axes (env : List (String × H5Dataset)) (d : H5Dataset)
    (refs : List String) (rows cols : Nat)
    (hdims : d.dims = [rows, cols]) (hdl : d.dimensionList = some refs)
    (hres : ∀ r ∈ refs, (alookup env r).isSome)
    (hnom : (∀ r ∈ refs, ∀ dim, alookup env r = some dim → dimLen dim ≠ cols) ∨
            (∀ r ∈ refs, ∀ dim, alookup env r = some dim → dimLen dim ≠ rows)) :
    ∃ v, H5GridProjectionInfo.get_dimension_datasets env d = .error (.unboundLocal v) ∧
      GridProjectionInfo.get_dimension_datasets env d = .error (.unboundLocal v) ∧
      (PyError.unboundLocal v).isCF = false := by
  have h0 : d.dims.get? 0 = some rows := by rw [hdims]; rfl
  have h1 : d.dims.get? 1 = some cols := by rw [hdims]; rfl
  rcases hnom with hx | hy
  · obtain ⟨yr, ha⟩ := assignDims_x_stays_none env d.dims rows cols h0 h1 refs none hres hx
    refine ⟨"x", ?_, ?_, rfl⟩
    · unfold H5GridProjectionInfo.get_dimension_datasets
      simp only [hdl]
      rw [ha, exceptBind_ok]
    · unfold GridProjectionInfo.get_dimension_datasets
      simp only [hdl]
      rw [ha, exceptBind_ok]
  · obtain ⟨xr, ha⟩ := assignDims_y_stays_none env d.dims rows cols h0 h1 refs none hres hy
    cases hxr : xr with
    | none =>
        refine ⟨"x", ?_, ?_, rfl⟩
        · unfold H5GridProjectionInfo.get_dimension_datasets
          simp only [hdl]
          rw [ha, hxr, exceptBind_ok]
        · unfold GridProjectionInfo.get_dimension_datasets
          simp only [hdl]
          rw [ha, hxr, exceptBind_ok]
    | some x =>
        refine ⟨"y", ?_, ?_, rfl⟩
        · unfold H5GridProjectionInfo.get_dimension_datasets
          simp only [hdl]
          rw [ha, hxr, exceptBind_ok]
        · unfold GridProjectionInfo.get_dimension_datasets
          simp only [hdl]
          rw [ha, hxr, exceptBind_ok]

/-- A length-5 dimension-scale dataset matching neither axis of `dsC10`. -/
def dimT10 : H5Dataset :=
  ⟨"/t", [5], [], [0, 1, 2, 3, 4], none, none, none, none, none, none, none⟩

/-- A 2×3 dataset whose only referenced dimension scale matches neither axis. -/
def dsC10 : H5Dataset :=
  ⟨"/d", [2, 3], [], [], some ["/t"], none, none, none, none, none, none⟩

/-- The reference environment of the C10 fixture. -/
def envC10 : List (String × H5Dataset) := [("/t", dimT10)]

/-- C10 witness: the theorem applied at the concrete fixture. -/
theorem c10_unbound_dimension_axes_witness :
    ∃ v, H5GridProjectionInfo.get_dimension_datasets envC10 dsC10 =
        .error (.unboundLocal v) ∧
      GridProjectionInfo.get_dimension_datasets envC10 dsC10 = .error (.unboundLocal v) ∧
      (PyError.unboundLocal v).isCF = false :=
  c10_unbound_dimension_axes envC10 dsC10 ["/t"] 2 3 rfl rfl
    (by
      intro r hr
      simp only [List.mem_singleton] at hr
      subst hr
      decide)
    (Or.inl (by
      intro r hr dim hdim
      simp only [List.mem_singleton] at hr
      subst hr
      have hd : dimT10 = dim := by simpa [alookup, envC10] using hdim
      subst hd
      decide))

/-- A 2×2 dataset lacking `DIMENSION_LIST` (and `_FillValue`). -/
def dsNoDim : H5Dataset :=
  ⟨"/nodim", [2, 2], [[1, 2], [3, 4]], [], none, none, none, none, none, none, none⟩

/-- C3 counterexample: on a concrete dataset lacking `DIMENSION_LIST`, the
flat generation's cache-key computation (which resolves projection metadata
through the *legacy* reader `GridProjectionInfo`) fails with a `TypeError`
from subscripting the legacy reader's `None` result — not with the
distinguished CF-compliance error the claim asserts the flat pipeline
surfaces. -/
theorem c3_counterexample :
    H5MaskFill.get_mask_array_id (fun s => s) convTriv [] [] dsNoDim "region.shp" =
      .error (.typeError "NoneType object is not subscriptable") ∧
    (PyError.typeError "NoneType object is not subscriptable").isCF = false := by
  exact ⟨rfl, rfl⟩

/-- C3 (amended): only the packaged pipeline depends on the strict reader of
§4.3.  The flat generation resolves projection metadata through the legacy
reader and the fill value through its own local rule (which substitutes the
default exactly as the strict reader's rule does), so a dataset lacking
`DIMENSION_LIST` surfaces from the flat pipeline's key computation as a
non-CF `TypeError`, while the packaged pipeline's key computation surfaces
the distinguished CF-compliance error. -/
theorem c3_flat_uses_legacy_reader (hashFn : String → String) (conv : CRSConv)
    (env : List (String × H5Dataset)) (gms : List (String × GridMapping))
    (d : H5Dataset) (shape_path : String)
    (hdl : d.dimensionList = none) :
    H5MaskFill.get_mask_array_id hashFn conv env gms d shape_path =
      .error (.typeError "NoneType object is not subscriptable") ∧
    (PyError.typeError "NoneType object is not subscriptable").isCF = false ∧
    Pymods.H5MaskFill.get_mask_array_id hashFn conv env gms d shape_path =
      .error (.cfCompliance
        ("The dataset " ++ d.name ++ " does not have a DIMENSION_LIST attribute")) ∧
    (∀ dfv, H5MaskFill.get_fill_value d dfv =
      H5GridProjectionInfo.get_fill_value d dfv) ∧
    (∀ dfv, d.fillValueAttr = none → H5MaskFill.get_fill_value d dfv = dfv) := by
  have hgddL : GridProjectionInfo.get_dimension_datasets env d = .ok none := by
    unfold GridProjectionInfo.get_dimension_datasets
    simp only [hdl]
  have hlegacy : GridProjectionInfo.get_hdf_proj4 conv env gms d =
      .error (.typeError "NoneType object is not subscriptable") := by
    unfold GridProjectionInfo.get_hdf_proj4
    rw [hgddL, exceptBind_ok]
  have hgddS : H5GridProjectionInfo.get_dimension_datasets env d =
      .error (.cfCompliance
        ("The dataset " ++ d.name ++ " does not have a DIMENSION_LIST attribute")) := by
    unfold H5GridProjectionInfo.get_dimension_datasets
    simp only [hdl]
  have hstrict : H5GridProjectionInfo.get_hdf_proj4 conv env gms d =
      .error (.cfCompliance
        ("The dataset " ++ d.name ++ " does not have a DIMENSION_LIST attribute")) := by
    unfold H5GridProjectionInfo.get_hdf_proj4
    rw [hgddS, exceptBind_error]
  refine ⟨?_, rfl, ?_, ?_, ?_⟩
  · unfold H5MaskFill.get_mask_array_id
    rw [hlegacy, exceptBind_error]
  · unfold Pymods.H5MaskFill.get_mask_array_id
    rw [hstrict, exceptBind_error]
  · intro dfv
    rfl
  · intro dfv hf
    unfold H5MaskFill.get_fill_value
    rw [hf]

/-- C3 witness: the amended theorem applied at the concrete fixture. -/
theorem c3_flat_uses_legacy_reader_witness :
    H5MaskFill.get_mask_array_id (fun s => s) convTriv [] [] dsNoDim "region.shp" =
      .error (.typeError "NoneType object is not subscriptable") ∧
    (PyError.typeError "NoneType object is not subscriptable").isCF = false ∧
    Pymods.H5MaskFill.get_mask_array_id (fun s => s) convTriv [] [] dsNoDim "region.shp" =
      .error (.cfCompliance
        ("The dataset " ++ dsNoDim.name ++ " does not have a DIMENSION_LIST attribute")) ∧
    (∀ dfv, H5MaskFill.get_fill_value dsNoDim dfv =
      H5GridProjectionInfo.get_fill_value dsNoDim dfv) ∧
    (∀ dfv, dsNoDim.fillValueAttr = none → H5MaskFill.get_fill_value dsNoDim dfv = dfv) :=
  c3_flat_uses_legacy_reader (fun s => s) convTriv [] [] dsNoDim "region.shp" rfl

theorem flat_process_file_head_error
    (step : H5Dataset → MaskCache → Except PyError (H5Dataset × MaskCache))
    (d : H5Dataset) (rest : List H5Dataset) (saved : MaskCache) (e : PyError)
    (h : step d saved = .error e) :
    H5MaskFill.process_file step (d :: rest) saved = .error e := by
  unfold H5MaskFill.process_file
  rw [h, exceptBind_error]

theorem pymods_process_file_head_error
    (step : H5Dataset → MaskCache → Except PyError (H5Dataset × MaskCache))
    (d : H5Dataset) (rest : List H5Dataset) (saved : MaskCache) (e : PyError)
    (h : step d saved = .error e) :
    Pymods.H5MaskFill.process_file step (d :: rest) saved = .error e := by
  unfold Pymods.H5MaskFill.process_file
  rw [h, exceptBind_error]

/-- C9: in both generations, for a 2-D dataset carrying an `observed_max` (or,
failing that, an `observed_min`) attribute, if after the mask fill every cell
of the filled grid equals the fill value, the per-dataset step fails with the
ValueError raised by taking the maximum (or minimum) of the then-empty
non-fill selection, and the traversal aborts at that dataset. -/
theorem c9_empty_statistics_failure
    (engine : MaskEngine) (gtiffId : String → String → String)
    (hashFn : String → String) (conv : CRSConv)
    (env : List (String × H5Dataset)) (gms : List (String × GridMapping))
    (disk : MaskCache) (shape_path cache_dir mask_grid_cache : String)
    (dfv : ℚ) (d : H5Dataset) (saved : MaskCache)
    (mask mask2 : Mask) (saved1 saved2 : MaskCache)
    (h2d : d.dims.length = 2)
    (hmode : mask_grid_cache ≠ "maskgrid_only")
    (hstat : d.observedMax.isSome ∨ (d.observedMax = none ∧ d.observedMin.isSome))
    (hmask : H5MaskFill.get_mask_array engine hashFn conv env gms disk d
        shape_path cache_dir mask_grid_cache saved = .ok (mask, saved1))
    (hall : ∀ v ∈ (MaskFill.mask_fill_array d.grid mask
        (H5MaskFill.get_fill_value d dfv)).flatten, v = H5MaskFill.get_fill_value d dfv)
    (hmask2 : Pymods.H5MaskFill.get_mask_array engine gtiffId hashFn conv env gms disk d
        shape_path cache_dir mask_grid_cache saved = .ok (mask2, saved2))
    (hall2 : ∀ v ∈ (MaskFill.mask_fill_array d.grid mask2
        (H5GridProjectionInfo.get_fill_value d dfv)).flatten,
        v = H5GridProjectionInfo.get_fill_value d dfv) :
    ∃ m, (H5MaskFill.mask_fill engine hashFn conv env gms disk shape_path cache_dir
        mask_grid_cache dfv d saved = .error (.valueError m) ∧
      ∀ rest, H5MaskFill.process_file
        (H5MaskFill.mask_fill engine hashFn conv env gms disk shape_path cache_dir
          mask_grid_cache dfv) (d :: rest) saved = .error (.valueError m)) ∧
      (Pymods.H5MaskFill.mask_fill engine gtiffId hashFn conv env gms disk shape_path
        cache_dir mask_grid_cache dfv d saved = .error (.valueError m) ∧
      ∀ rest, Pymods.H5MaskFill.process_file
        (Pymods.H5MaskFill.mask_fill engine gtiffId hashFn conv env gms disk shape_path
          cache_dir mask_grid_cache dfv) (d :: rest) saved = .error (.valueError m)) := by
  have hfe : (MaskFill.mask_fill_array d.grid mask
      (H5MaskFill.get_fill_value d dfv)).flatten.filter
        (fun v => v ≠ H5MaskFill.get_fill_value d dfv) = [] := by
    rw [List.filter_eq_nil_iff]
    intro a ha
    simp [hall a ha]
  have hfe2 : (MaskFill.mask_fill_array d.grid mask2
      (H5GridProjectionInfo.get_fill_value d dfv)).flatten.filter
        (fun v => v ≠ H5GridProjectionInfo.get_fill_value d dfv) = [] := by
    rw [List.filter_eq_nil_iff]
    intro a ha
    simp [hall2 a ha]
  have hflat : ∀ m, d.observedMax = some m →
      H5MaskFill.mask_fill engine hashFn conv env gms disk shape_path cache_dir
        mask_grid_cache dfv d saved = .error (.valueError "max() arg is an empty sequence") := by
    intro m hm
    unfold H5MaskFill.mask_fill
    rw [if_neg (by simp [h2d])]
    rw [hmask, exceptBind_ok]
    dsimp only
    rw [if_pos hmode]
    rw [hfe, hm]
    rfl
  have hflatmin : d.observedMax = none → ∀ m, d.observedMin = some m →
      H5MaskFill.mask_fill engine hashFn conv env gms disk shape_path cache_dir
        mask_grid_cache dfv d saved = .error (.valueError "min() arg is an empty sequence") := by
    intro hmax m hm
    unfold H5MaskFill.mask_fill
    rw [if_neg (by simp [h2d])]
    rw [hmask, exceptBind_ok]
    dsimp only
    rw [if_pos hmode]
    rw [hfe, hmax, hm]
    rfl
  have hpym : ∀ m, d.observedMax = some m →
      Pymods.H5MaskFill.mask_fill engine gtiffId hashFn conv env gms disk shape_path
        cache_dir mask_grid_cache dfv d saved =
        .error (.valueError "max() arg is an empty sequence") := by
    intro m hm
    unfold Pymods.H5MaskFill.mask_fill
    rw [if_neg (by simp [h2d])]
    rw [hmask2, exceptBind_ok]
    dsimp only
    rw [if_pos hmode]
    rw [hfe2, hm]
    rfl
  have hpymmin : d.observedMax = none → ∀ m, d.observedMin = some m →
      Pymods.H5MaskFill.mask_fill engine gtiffId hashFn conv env gms disk shape_path
        cache_dir mask_grid_cache dfv d saved =
        .error (.valueError "min() arg is an empty sequence") := by
    intro hmax m hm
    unfold Pymods.H5MaskFill.mask_fill
    rw [if_neg (by simp [h2d])]
    rw [hmask2, exceptBind_ok]
    dsimp only
    rw [if_pos hmode]
    rw [hfe2, hmax, hm]
    rfl
  rcases hstat with hmax | ⟨hmaxn, hmin⟩
  · obtain ⟨mx, hmx⟩ := Option.isSome_iff_exists.mp hmax
    refine ⟨"max() arg is an empty sequence",
      ⟨hflat mx hmx, fun rest => ?_⟩, ⟨hpym mx hmx, fun rest => ?_⟩⟩
    · exact flat_process_file_head_error _ d rest saved _ (hflat mx hmx)
    · exact pymods_process_file_head_error _ d rest saved _ (hpym mx hmx)
  · obtain ⟨mn, hmn⟩ := Option.isSome_iff_exists.mp hmin
    refine ⟨"min() arg is an empty sequence",
      ⟨hflatmin hmaxn mn hmn, fun rest => ?_⟩, ⟨hpymmin hmaxn mn hmn, fun rest => ?_⟩⟩
    · exact flat_process_file_head_error _ d rest saved _ (hflatmin hmaxn mn hmn)
    · exact pymods_process_file_head_error _ d rest saved _ (hpymmin hmaxn mn hmn)

/-- A length-2 dimension scale (y slot first in the reference list). -/
def dimY9 : H5Dataset :=
  ⟨"/y9", [2], [], [0, 2], none, none, none, none, none, none, none⟩

/-- A length-2 dimension scale with geographic units. -/
def dimX9 : H5Dataset :=
  ⟨"/x9", [2], [], [0, 2], none, some "degrees_north", none, none, none, none, none⟩

/-- A 2×2 dataset with `_FillValue` 7, an `observed_max` attribute and a
geographic CRS. -/
def dsC9 : H5Dataset :=
  ⟨"/v", [2, 2], [[5, 5], [5, 5]], [], some ["/y9", "/x9"], none, none, some 7,
   some 99, none, none⟩

/-- The reference environment of the C9 fixture. -/
def env9 : List (String × H5Dataset) := [("/y9", dimY9), ("/x9", dimX9)]

/-- A mask engine that rasterizes everything to an all-False 2×2 mask. -/
def engine9 : MaskEngine := ⟨fun _ _ => [], fun _ _ _ => [[false, false], [false, false]]⟩

/-- The all-False mask produced by `engine9`. -/
def mask9 : Mask := [[false, false], [false, false]]

/-- C9 witness: the theorem applied to the concrete fixture, in which the mask
is all-False so the filled grid is identically the fill value 7. -/
theorem c9_empty_statistics_failure_witness :
    ∃ m, (H5MaskFill.mask_fill engine9 (fun _ => "K") convTriv env9 [] [] "region.shp"
        "cache" "ignore_and_delete" 0 dsC9 [] = .error (.valueError m) ∧
      ∀ rest, H5MaskFill.process_file
        (H5MaskFill.mask_fill engine9 (fun _ => "K") convTriv env9 [] [] "region.shp"
          "cache" "ignore_and_delete" 0) (dsC9 :: rest) [] = .error (.valueError m)) ∧
      (Pymods.H5MaskFill.mask_fill engine9 (fun _ _ => "G") (fun _ => "K") convTriv env9 []
        [] "region.shp" "cache" "ignore_and_delete" 0 dsC9 [] = .error (.valueError m) ∧
      ∀ rest, Pymods.H5MaskFill.process_file
        (Pymods.H5MaskFill.mask_fill engine9 (fun _ _ => "G") (fun _ => "K") convTriv env9
          [] [] "region.shp" "cache" "ignore_and_delete" 0) (dsC9 :: rest) [] =
        .error (.valueError m)) :=
  c9_empty_statistics_failure engine9 (fun _ _ => "G") (fun _ => "K") convTriv env9 [] []
    "region.shp" "cache" "ignore_and_delete" 0 dsC9 [] mask9 mask9
    (aset [] "K" mask9) (aset [] "K" mask9) rfl (by decide) (Or.inl rfl) rfl
    (by
      intro v hv
      simp [MaskFill.mask_fill_array, H5MaskFill.get_fill_value, dsC9, mask9] at hv ⊢
      exact hv)
    rfl
    (by
      intro v hv
      simp [MaskFill.mask_fill_array, H5GridProjectionInfo.get_fill_value, dsC9, mask9]
        at hv ⊢
      exact hv)

theorem flat_step_maskgrid_only_preserves (engine : MaskEngine)
    (hashFn : String → String) (conv : CRSConv) (env : List (String × H5Dataset))
    (gms : List (String × GridMapping)) (disk : MaskCache)
    (shape_path cache_dir : String) (dfv : ℚ) (d : H5Dataset) (saved : MaskCache)
    (d' : H5Dataset) (saved' : MaskCache)
    (h : H5MaskFill.mask_fill engine hashFn conv env gms disk shape_path cache_dir
      "maskgrid_only" dfv d saved = .ok (d', saved')) : d' = d := by
  unfold H5MaskFill.mask_fill at h
  by_cases h2 : d.dims.length ≠ 2
  · rw [if_pos h2] at h
    obtain ⟨h1, -⟩ := Prod.mk.injEq .. ▸ (Except.ok.injEq .. ▸ h)
    exact h1.symm
  · rw [if_neg h2] at h
    cases hm : H5MaskFill.get_mask_array engine hashFn conv env gms disk d shape_path
        cache_dir "maskgrid_only" saved with
    | error e =>
        rw [hm, exceptBind_error] at h
        cases h
    | ok p =>
        rw [hm, exceptBind_ok] at h
        dsimp only at h
        rw [if_neg (fun hh => hh rfl)] at h
        obtain ⟨h1, -⟩ := Prod.mk.injEq .. ▸ (Except.ok.injEq .. ▸ h)
        exact h1.symm

theorem flat_process_file_preserves
    (step : H5Dataset → MaskCache → Except PyError (H5Dataset × MaskCache))
    (hstep : ∀ d saved d' saved', step d saved = .ok (d', saved') → d' = d) :
    ∀ (ds : List H5Dataset) (saved : MaskCache) (out : List H5Dataset × MaskCache),
      H5MaskFill.process_file step ds saved = .ok out → out.1 = ds := by
  intro ds
  induction ds with
  | nil =>
      intro saved out h
      obtain rfl : (([], saved) : List H5Dataset × MaskCache) = out := by
        simpa [H5MaskFill.process_file] using h
      rfl
  | cons d rest ih =>
      intro saved out h
      unfold H5MaskFill.process_file at h
      cases hs : step d saved with
      | error e =>
          rw [hs, exceptBind_error] at h
          cases h
      | ok p =>
          rw [hs, exceptBind_ok] at h
          cases hr : H5MaskFill.process_file step rest p.2 with
          | error e =>
              rw [hr, exceptBind_error] at h
              cases h
          | ok q =>
              rw [hr, exceptBind_ok] at h
              obtain rfl : ((p.1 :: q.1, q.2) : List H5Dataset × MaskCache) = out := by
                simpa using h
              have h1 : p.1 = d := hstep d saved p.1 p.2 (by rw [hs])
              have h2 : q.1 = rest := ih p.2 q hr
              simp [h1, h2]

/-- C8: frame property of the flat generation's `produce_masked_hdf`.  When
the lower-cased mode is exactly `maskgrid_only`, the run returns no value and
no HDF5 file in the world is modified (the original is processed in place and
no dataset's data or attributes are overwritten; mask arrays are computed and
persisted as the only side effect); for every other mode the run copies the
input to the derived output path, modifies only that copy, and returns that
output path. -/
theorem c8_maskgrid_only_frame (engine : MaskEngine) (hashFn : String → String)
    (conv : CRSConv) (hdf_path shape_path output_dir mode_arg : String) (dfv : ℚ)
    (w w' : World) (r : Option String)
    (hrun : H5MaskFill.produce_masked_hdf engine hashFn conv hdf_path shape_path
      output_dir mode_arg dfv w = .ok (w', r)) :
    (strToLower mode_arg = "maskgrid_only" →
      r = none ∧ ∀ p, alookup w'.files p = alookup w.files p) ∧
    (strToLower mode_arg ≠ "maskgrid_only" →
      r = some (MaskFill.get_masked_file_path hdf_path output_dir) ∧
      (∃ f', alookup w'.files (MaskFill.get_masked_file_path hdf_path output_dir) =
        some f') ∧
      ∀ p, p ≠ MaskFill.get_masked_file_path hdf_path output_dir →
        alookup w'.files p = alookup w.files p) := by
  unfold H5MaskFill.produce_masked_hdf at hrun
  by_cases hm : strToLower mode_arg = "maskgrid_only"
  · refine ⟨fun _ => ?_, fun hne => absurd hm hne⟩
    have hmb : (strToLower mode_arg == "maskgrid_only") = true := by
      simp [hm]
    simp only [hmb, Bool.false_eq_true, if_false, if_true] at hrun
    cases hl : alookup w.files hdf_path with
    | none =>
        simp only [hl, exceptBind_error] at hrun
        cases hrun
    | some file =>
        simp only [hl] at hrun
        cases hp : H5MaskFill.process_file
            (H5MaskFill.mask_fill engine hashFn conv (fileEnv file) file.gridMappings
              w.disk shape_path output_dir (strToLower mode_arg) dfv)
            file.datasets [] with
        | error e =>
            rw [hp, exceptBind_error] at hrun
            cases hrun
        | ok run =>
            rw [hp, exceptBind_ok, exceptBind_ok] at hrun
            dsimp only at hrun
            have hpres : run.1 = file.datasets :=
              flat_process_file_preserves
                (H5MaskFill.mask_fill engine hashFn conv (fileEnv file)
                  file.gridMappings w.disk shape_path output_dir
                  (strToLower mode_arg) dfv)
                (fun d saved d' saved' hstep => by
                  rw [hm] at hstep
                  exact flat_step_maskgrid_only_preserves engine hashFn conv
                    (fileEnv file) file.gridMappings w.disk shape_path output_dir dfv
                    d saved d' saved' hstep)
                file.datasets [] run hp
            have hinj := Except.ok.inj hrun
            have hr : r = none := (congrArg Prod.snd hinj).symm
            have hw' := congrArg Prod.fst hinj
            dsimp only at hw'
            have hfeq : H5File.mk run.1 file.gridMappings = file := by
              rw [hpres]
            refine ⟨hr, ?_⟩
            intro p
            rw [← hw']
            cases hb : H5MaskFill.flat_save_cond (strToLower mode_arg) <;>
              simp only [hb, Bool.false_eq_true, if_false, if_true] <;>
              rw [hfeq] <;>
              exact alookup_aset_same w.files hdf_path file hl p
  · refine ⟨fun he => absurd he hm, fun _ => ?_⟩
    have hmb : (strToLower mode_arg == "maskgrid_only") = false := by
      simp [hm]
    simp only [hmb, Bool.false_eq_true, if_false, if_true] at hrun
    cases hl : alookup w.files hdf_path with
    | none =>
        simp only [hl, exceptBind_error] at hrun
        cases hrun
    | some file =>
        simp only [hl] at hrun
        cases hp : H5MaskFill.process_file
            (H5MaskFill.mask_fill engine hashFn conv (fileEnv file) file.gridMappings
              w.disk shape_path output_dir (strToLower mode_arg) dfv)
            file.datasets [] with
        | error e =>
            rw [hp, exceptBind_error] at hrun
            cases hrun
        | ok run =>
            rw [hp, exceptBind_ok, exceptBind_ok] at hrun
            dsimp only at hrun
            have hinj := Except.ok.inj hrun
            have hr : r = some (MaskFill.get_masked_file_path hdf_path output_dir) :=
              (congrArg Prod.snd hinj).symm
            have hw' := congrArg Prod.fst hinj
            dsimp only at hw'
            have hwfiles : w'.files = aset (aset w.files
                (MaskFill.get_masked_file_path hdf_path output_dir) file)
                (MaskFill.get_masked_file_path hdf_path output_dir)
                (H5File.mk run.1 file.gridMappings) := by
              rw [← hw']
              cases hb : H5MaskFill.flat_save_cond (strToLower mode_arg) <;>
                simp only [hb, Bool.false_eq_true, if_false, if_true]
            refine ⟨hr, ?_, ?_⟩
            · rw [hwfiles]
              exact ⟨_, alookup_aset_self _ _ _⟩
            · intro p hp'
              rw [hwfiles]
              rw [alookup_aset_ne _ _ _ _ hp', alookup_aset_ne _ _ _ _ hp']

/-- An HDF5 file with no datasets (traversal visits nothing). -/
def fileC8 : H5File := ⟨[], []⟩

/-- The initial world of the C8 fixture: one HDF5 file, empty mask cache. -/
def wC8 : World := ⟨[("in.h5", fileC8)], []⟩

/-- The world after a non-`maskgrid_only` run of the C8 fixture: the copy at
the derived output path is added; the original entry is untouched. -/
def wC8B : World := ⟨[("in.h5", fileC8), ("out/masked_in.h5", fileC8)], []⟩

/-- C8 witness: the theorem applied to two concrete runs — one with mode
`MaskGrid_Only` (lower-cased to `maskgrid_only`) and one with mode
`use_cache`. -/
theorem c8_maskgrid_only_frame_witness :
    ((strToLower "MaskGrid_Only" = "maskgrid_only" →
      (none : Option String) = none ∧
      ∀ p, alookup wC8.files p = alookup wC8.files p) ∧
     (strToLower "use_cache" ≠ "maskgrid_only" →
      (some "out/masked_in.h5" : Option String) =
        some (MaskFill.get_masked_file_path "in.h5" "out") ∧
      (∃ f', alookup wC8B.files (MaskFill.get_masked_file_path "in.h5" "out") =
        some f') ∧
      ∀ p, p ≠ MaskFill.get_masked_file_path "in.h5" "out" →
        alookup wC8B.files p = alookup wC8.files p)) :=
  ⟨(c8_maskgrid_only_frame engine9 (fun _ => "K") convTriv "in.h5" "s.shp" "out"
      "MaskGrid_Only" 0 wC8 wC8 none rfl).1,
   (c8_maskgrid_only_frame engine9 (fun _ => "K") convTriv "in.h5" "s.shp" "out"
      "use_cache" 0 wC8 wC8B (some "out/masked_in.h5") rfl).2⟩

theorem aset_preserves_isSome {α : Type} (l : List (String × α)) (k' : String) (v : α)
    (k : String) (h : (alookup l k).isSome = true) :
    (alookup (aset l k' v) k).isSome = true := by
  by_cases hk : k = k'
  · subst hk
    rw [alookup_aset_self]
    rfl
  · rw [alookup_aset_ne _ _ _ _ hk]
    exact h

theorem foldl_aset_isSome {α : Type} (g : (String × α) → String)
    (l : List (String × α)) (disk : List (String × α)) (k : String)
    (h : (alookup disk k).isSome = true) :
    (alookup (l.foldl (fun dk q => aset dk (g q) q.2) disk) k).isSome = true := by
  induction l generalizing disk with
  | nil => exact h
  | cons q rest ih =>
      exact ih (aset disk (g q) q.2) (aset_preserves_isSome disk (g q) q.2 k h)

theorem foldl_aset_present {α : Type} (g : (String × α) → String)
    (l : List (String × α)) (disk : List (String × α)) (p : String × α)
    (hp : p ∈ l) :
    ∃ m', alookup (l.foldl (fun dk q => aset dk (g q) q.2) disk) (g p) = some m' := by
  induction l generalizing disk with
  | nil => cases hp
  | cons q rest ih =>
      rcases List.mem_cons.mp hp with rfl | hmem
      · have hsome : (alookup (aset disk (g p) p.2) (g p)).isSome = true := by
          rw [alookup_aset_self]
          rfl
        have := foldl_aset_isSome g rest (aset disk (g p) p.2) (g p) hsome
        exact Option.isSome_iff_exists.mp this
      · exact ih (aset disk (g q) q.2) hmem

/-- C4: the cache-mode decision table.  (A) In the flat generation's
`get_mask_array` (and likewise (B) in the packaged caching component's
`get_cached_mask_array`), an existing on-disk mask-array file is read if and
only if the (lower-cased) mode's text contains `use` and the file exists —
otherwise the mask is computed fresh.  (C) After a flat-generation run the
disk cache is extended with the in-run mask arrays exactly when the mode's
text contains `save` or the mode is exactly `maskgrid_only`; (D) after a
packaged-generation run the disk cache is whatever the caching component's
batch save produces, which (E) persists every in-run mask array exactly when
the mode's text does not contain `delete`; (E') the flat save loop persists
every in-run mask array.  (F) Instantiating the six modes reproduces the
table of §4.6 — in particular for `use_cache` the flat generation does not
persist while the packaged generation does. -/
theorem c4_cache_mode_decision_table :
    (∀ (engine : MaskEngine) (hashFn : String → String) (conv : CRSConv)
        (env : List (String × H5Dataset)) (gms : List (String × GridMapping))
        (disk : MaskCache) (d : H5Dataset) (shape_path cache_dir mode : String)
        (saved : MaskCache) (mid : String),
      H5MaskFill.get_mask_array_id hashFn conv env gms d shape_path = .ok mid →
      alookup saved mid = none →
      (∀ m, strHas mode "use" = true →
        alookup disk (H5MaskFill.get_mask_array_path mid cache_dir) = some m →
        H5MaskFill.get_mask_array engine hashFn conv env gms disk d shape_path
          cache_dir mode saved = .ok (m, aset saved mid m)) ∧
      (∀ cm, strHas mode "use" = false →
        H5MaskFill.create_mask_array engine conv env gms d shape_path = .ok cm →
        H5MaskFill.get_mask_array engine hashFn conv env gms disk d shape_path
          cache_dir mode saved = .ok (cm, aset saved mid cm))) ∧
    (∀ (gtiffId : String → String → String) (hashFn : String → String) (conv : CRSConv)
        (env : List (String × H5Dataset)) (gms : List (String × GridMapping))
        (disk : MaskCache) (d : H5Dataset) (shape_path cache_dir mode : String)
        (mid : String),
      Pymods.H5MaskFill.get_mask_array_id hashFn conv env gms d shape_path = .ok mid →
      ∀ m, Pymods.MaskFillCaching.get_cached_mask_array gtiffId hashFn conv env gms disk
          (.h5 d) shape_path cache_dir mode = .ok (some m) ↔
        (strHas mode "use" = true ∧
         alookup disk (Pymods.MaskFillCaching.get_mask_array_path_from_id mid cache_dir) =
           some m)) ∧
    (∀ (engine : MaskEngine) (hashFn : String → String) (conv : CRSConv)
        (hdf_path shape_path output_dir mode_arg : String) (dfv : ℚ)
        (w w' : World) (r : Option String),
      H5MaskFill.produce_masked_hdf engine hashFn conv hdf_path shape_path output_dir
        mode_arg dfv w = .ok (w', r) →
      ∃ saved, w'.disk =
        (if H5MaskFill.flat_save_cond (strToLower mode_arg) = true then
          H5MaskFill.save_mask_arrays output_dir saved w.disk
        else w.disk)) ∧
    (∀ (engine : MaskEngine) (gtiffId : String → String → String)
        (hashFn : String → String) (conv : CRSConv)
        (hdf_path shape_path output_dir cache_dir mode_arg : String) (dfv : ℚ)
        (w w' : World) (r : Option String),
      Pymods.H5MaskFill.produce_masked_hdf engine gtiffId hashFn conv hdf_path shape_path
        output_dir cache_dir mode_arg dfv w = .ok (w', r) →
      ∃ saved, w'.disk =
        Pymods.MaskFillCaching.cache_mask_arrays saved cache_dir (strToLower mode_arg)
          w.disk) ∧
    (∀ (saved : List (String × Mask)) (cache_dir mode : String) (disk : MaskCache),
      (strHas mode "delete" = true →
        Pymods.MaskFillCaching.cache_mask_arrays saved cache_dir mode disk = disk) ∧
      (strHas mode "delete" = false → ∀ mid m, (mid, m) ∈ saved →
        ∃ m', alookup
          (Pymods.MaskFillCaching.cache_mask_arrays saved cache_dir mode disk)
          (Pymods.MaskFillCaching.get_mask_array_path_from_id mid cache_dir) =
            some m')) ∧
    (∀ (saved : List (String × Mask)) (cache_dir : String) (disk : MaskCache)
        (mid : String) (m : Mask), (mid, m) ∈ saved →
      ∃ m', alookup (H5MaskFill.save_mask_arrays cache_dir saved disk)
        (H5MaskFill.get_mask_array_path mid cache_dir) = some m') ∧
    (strHas "use_cache" "use" = true ∧ H5MaskFill.flat_save_cond "use_cache" = false ∧
     strHas "use_cache" "delete" = false ∧
     strHas "ignore_and_delete" "use" = false ∧
     H5MaskFill.flat_save_cond "ignore_and_delete" = false ∧
     strHas "ignore_and_delete" "delete" = true ∧
     strHas "ignore_and_save" "use" = false ∧
     H5MaskFill.flat_save_cond "ignore_and_save" = true ∧
     strHas "ignore_and_save" "delete" = false ∧
     strHas "use_and_save" "use" = true ∧
     H5MaskFill.flat_save_cond "use_and_save" = true ∧
     strHas "use_and_save" "delete" = false ∧
     strHas "use_cache_delete" "use" = true ∧
     H5MaskFill.flat_save_cond "use_cache_delete" = false ∧
     strHas "use_cache_delete" "delete" = true ∧
     strHas "maskgrid_only" "use" = false ∧
     H5MaskFill.flat_save_cond "maskgrid_only" = true ∧
     strHas "maskgrid_only" "delete" = false) := by
  refine ⟨?_, ?_, ?_, ?_, ?_, ?_, by decide⟩
  · intro engine hashFn conv env gms disk d shape_path cache_dir mode saved mid hid hnot
    constructor
    · intro m huse hdisk
      unfold H5MaskFill.get_mask_array
      rw [hid, exceptBind_ok]
      simp only [hnot, huse, if_true, hdisk, exceptBind_ok]
    · intro cm huse hcreate
      unfold H5MaskFill.get_mask_array
      rw [hid, exceptBind_ok]
      simp only [hnot, huse, Bool.false_eq_true, if_false, hcreate, exceptBind_ok]
  · intro gtiffId hashFn conv env gms disk d shape_path cache_dir mode mid hid2 m
    have hpath : Pymods.MaskFillCaching.get_mask_array_path gtiffId hashFn conv env gms
        (.h5 d) shape_path cache_dir =
        .ok (Pymods.MaskFillCaching.get_mask_array_path_from_id mid cache_dir) := by
      unfold Pymods.MaskFillCaching.get_mask_array_path
        Pymods.MaskFillCaching.get_mask_array_id
      dsimp only
      rw [hid2, exceptBind_ok]
    unfold Pymods.MaskFillCaching.get_cached_mask_array
    rw [hpath, exceptBind_ok]
    by_cases huse : strHas mode "use" = true
    · simp only [huse, if_true]
      cases hdk : alookup disk
          (Pymods.MaskFillCaching.get_mask_array_path_from_id mid cache_dir) with
      | some m' => simp [hdk]
      | none => simp [hdk]
    · simp only [Bool.not_eq_true] at huse
      simp [huse]
  · intro engine hashFn conv hdf_path shape_path output_dir mode_arg dfv w w' r hrun
    unfold H5MaskFill.produce_masked_hdf at hrun
    by_cases hm : (strToLower mode_arg == "maskgrid_only") = true
    · simp only [hm, Bool.false_eq_true, if_false, if_true] at hrun
      cases hl : alookup w.files hdf_path with
      | none =>
          simp only [hl, exceptBind_error] at hrun
          cases hrun
      | some file =>
          simp only [hl] at hrun
          cases hp : H5MaskFill.process_file
              (H5MaskFill.mask_fill engine hashFn conv (fileEnv file) file.gridMappings
                w.disk shape_path output_dir (strToLower mode_arg) dfv)
              file.datasets [] with
          | error e =>
              rw [hp, exceptBind_error] at hrun
              cases hrun
          | ok run =>
              rw [hp, exceptBind_ok, exceptBind_ok] at hrun
              dsimp only at hrun
              have hw' := congrArg Prod.fst (Except.ok.inj hrun)
              dsimp only at hw'
              refine ⟨run.2, ?_⟩
              rw [← hw']
              cases hb : H5MaskFill.flat_save_cond (strToLower mode_arg) <;>
                simp only [hb, Bool.false_eq_true, if_false, if_true]
    · simp only [hm, Bool.false_eq_true, if_false, if_true] at hrun
      cases hl : alookup w.files hdf_path with
      | none =>
          simp only [hl, exceptBind_error] at hrun
          cases hrun
      | some file =>
          simp only [hl] at hrun
          cases hp : H5MaskFill.process_file
              (H5MaskFill.mask_fill engine hashFn conv (fileEnv file) file.gridMappings
                w.disk shape_path output_dir (strToLower mode_arg) dfv)
              file.datasets [] with
          | error e =>
              rw [hp, exceptBind_error] at hrun
              cases hrun
          | ok run =>
              rw [hp, exceptBind_ok, exceptBind_ok] at hrun
              dsimp only at hrun
              have hw' := congrArg Prod.fst (Except.ok.inj hrun)
              dsimp only at hw'
              refine ⟨run.2, ?_⟩
              rw [← hw']
              cases hb : H5MaskFill.flat_save_cond (strToLower mode_arg) <;>
                simp only [hb, Bool.false_eq_true, if_false, if_true]
  · intro engine gtiffId hashFn conv hdf_path shape_path output_dir cache_dir mode_arg
      dfv w w' r hrun
    unfold Pymods.H5MaskFill.produce_masked_hdf at hrun
    by_cases hm : (strToLower mode_arg == "maskgrid_only") = true
    · simp only [bne, hm, Bool.not_true, Bool.false_eq_true, if_false, if_true] at hrun
      cases hl : alookup w.files hdf_path with
      | none =>
          simp only [hl, exceptBind_error] at hrun
          cases hrun
      | some file =>
          simp only [hl] at hrun
          cases hp : Pymods.H5MaskFill.process_file
              (Pymods.H5MaskFill.mask_fill engine gtiffId hashFn conv (fileEnv file)
                file.gridMappings w.disk shape_path cache_dir (strToLower mode_arg) dfv)
              file.datasets [] with
          | error e =>
              rw [hp, exceptBind_error] at hrun
              cases hrun
          | ok run =>
              rw [hp, exceptBind_ok, exceptBind_ok] at hrun
              dsimp only at hrun
              have hw' := congrArg Prod.fst (Except.ok.inj hrun)
              dsimp only at hw'
              refine ⟨run.2, ?_⟩
              rw [← hw']
    · simp only [bne, hm, Bool.not_false, Bool.false_eq_true, if_false, if_true] at hrun
      cases hl : alookup w.files hdf_path with
      | none =>
          simp only [hl, exceptBind_error] at hrun
          cases hrun
      | some file =>
          simp only [hl] at hrun
          cases hp : Pymods.H5MaskFill.process_file
              (Pymods.H5MaskFill.mask_fill engine gtiffId hashFn conv (fileEnv file)
                file.gridMappings w.disk shape_path cache_dir (strToLower mode_arg) dfv)
              file.datasets [] with
          | error e =>
              rw [hp, exceptBind_error] at hrun
              cases hrun
          | ok run =>
              rw [hp, exceptBind_ok, exceptBind_ok] at hrun
              dsimp only at hrun
              have hw' := congrArg Prod.fst (Except.ok.inj hrun)
              dsimp only at hw'
              refine ⟨run.2, ?_⟩
              rw [← hw']
  · intro saved cache_dir mode disk
    constructor
    · intro hdel
      unfold Pymods.MaskFillCaching.cache_mask_arrays
      simp [hdel]
    · intro hdel mid m hmem
      unfold Pymods.MaskFillCaching.cache_mask_arrays
      simp only [hdel, Bool.false_eq_true, not_false_eq_true, if_pos]
      exact foldl_aset_present
        (fun q => Pymods.MaskFillCaching.get_mask_array_path_from_id q.1 cache_dir)
        saved disk (mid, m) hmem
  · intro saved cache_dir disk mid m hmem
    unfold H5MaskFill.save_mask_arrays
    exact foldl_aset_present
      (fun q => H5MaskFill.get_mask_array_path q.1 cache_dir) saved disk (mid, m) hmem

/-- C4 witness: the packaged read rule applied at a concrete dataset, disk and
mode (`use_cache`, with the cache file on disk — the cached mask is returned),
together with the concrete `use_cache` row of the table: the flat generation's
save condition is off while the packaged generation's batch save (no
`delete` in the text) is on. -/
theorem c4_cache_mode_decision_table_witness :
    (Pymods.MaskFillCaching.get_cached_mask_array (fun _ _ => "G") (fun _ => "K") convTriv
        env9 [] [("cache/K.npy", mask9)] (.h5 dsC9) "region.shp" "cache" "use_cache" =
      .ok (some mask9)) ∧
    H5MaskFill.flat_save_cond "use_cache" = false ∧
    strHas "use_cache" "delete" = false :=
  ⟨(c4_cache_mode_decision_table.2.1 (fun _ _ => "G") (fun _ => "K") convTriv env9 []
      [("cache/K.npy", mask9)] dsC9 "region.shp" "cache" "use_cache" "K" rfl mask9).mpr
      ⟨by decide, by rfl⟩,
   c4_cache_mode_decision_table.2.2.2.2.2.2.2.1,
   c4_cache_mode_decision_table.2.2.2.2.2.2.2.2.1⟩
